import Mathlib

/-!
Shallow embedding of the GameBoy (DMG) emulator core, translated from the
Rust sources of the repository (src/cpu, src/bus, src/io, src/memory,
src/ppu).  Machine integers are modelled as `Nat` with explicit `% 2^w`
truncation where the Rust code casts or wraps; fallible operations return
`Except Error`.  Mutable methods become state-passing functions.
-/

namespace GB

/-- Error kinds (cpu/error.rs).  The extra `Panic` constructor models Rust
panics (the `todo` macro in the STOP arm, the `unimplemented` macro in
`LcdStatus::set_from_u8`), which abort execution rather than returning an
`Error` value.  The decoder in decoder.rs constructs `InvalidInstruction`
with only the address (a revision mismatch with error.rs, which declares
two payloads); we carry both the address and the offending byte. -/
inductive Error where
  | BootRomReadFailure
  | InvalidInstruction (addr byte : Nat)
  | MemoryReadFault (addr : Nat)
  | MemoryWriteFault (addr val : Nat)
  | Panic
deriving DecidableEq

/-- CPU flag quartet (cpu/execution_state.rs, struct Flags). -/
structure Flags where
  carry : Bool
  half_carry : Bool
  subtraction : Bool
  zero : Bool
deriving DecidableEq

def Flags.zeros : Flags :=
  { carry := false, half_carry := false, subtraction := false, zero := false }

def Flags.new (carry half_carry subtraction zero : Bool) : Flags :=
  { carry := carry, half_carry := half_carry, subtraction := subtraction, zero := zero }

/-- impl From<u8> for Flags: decodes C,H,N,Z from bits 4,5,6,7. -/
def Flags.fromU8 (value : Nat) : Flags :=
  { carry := (value / 16) % 2 ≠ 0        -- (value >> 4) & 1
    half_carry := (value / 32) % 2 ≠ 0   -- (value >> 5) & 1
    subtraction := (value / 64) % 2 ≠ 0  -- (value >> 6) & 1
    zero := (value / 128) % 2 ≠ 0 }       -- (value >> 7) & 1

/-- impl From<Flags> for u8: the source shifts the 0/1 bit RIGHT
(`(if carry then 1 else 0) >> 4` and so on) instead of left, faithfully
reproduced here with `>>>`. -/
def Flags.toU8 (value : Flags) : Nat :=
  let b : Nat := 0
  let b := b ||| ((if value.carry then 1 else 0) >>> 4)
  let b := b ||| ((if value.half_carry then 1 else 0) >>> 5)
  let b := b ||| ((if value.subtraction then 1 else 0) >>> 6)
  let b := b ||| ((if value.zero then 1 else 0) >>> 7)
  b

/-- impl From<Flags> for u16. -/
def Flags.toU16 (value : Flags) : Nat :=
  value.toU8

/-- CPU register file (cpu/execution_state.rs, struct ExecutionState). -/
structure ExecutionState where
  instruction_pointer : Nat
  stack_pointer : Nat
  reg_bc : Nat
  reg_de : Nat
  reg_hl : Nat
  reg_a : Nat
  flags : Flags
  interrupts_enabled : Bool

def ExecutionState.new : ExecutionState :=
  { instruction_pointer := 0, stack_pointer := 0xFFFF, reg_bc := 0, reg_de := 0,
    reg_hl := 0, reg_a := 0, flags := Flags.zeros, interrupts_enabled := false }

def ExecutionState.reg_af (s : ExecutionState) : Nat :=
  (s.reg_a <<< 8) ||| s.flags.toU16

def ExecutionState.set_reg_af (s : ExecutionState) (value : Nat) : ExecutionState :=
  { s with reg_a := (value / 256) % 256,      -- (value >> 8) as u8
           flags := Flags.fromU8 (value % 256) } -- (value & 0xFF) as u8

def ExecutionState.set_instruction_pointer (s : ExecutionState) (value : Nat) : ExecutionState :=
  { s with instruction_pointer := value }

def ExecutionState.set_stack_pointer (s : ExecutionState) (value : Nat) : ExecutionState :=
  { s with stack_pointer := value }

def ExecutionState.set_flags (s : ExecutionState) (flags : Flags) : ExecutionState :=
  { s with flags := flags }

def ExecutionState.set_interrupts_enabled (s : ExecutionState) (enabled : Bool) : ExecutionState :=
  { s with interrupts_enabled := enabled }

def ExecutionState.set_reg_a (s : ExecutionState) (value : Nat) : ExecutionState :=
  { s with reg_a := value }

def ExecutionState.reg_b (s : ExecutionState) : Nat := (s.reg_bc / 256) % 256

def ExecutionState.reg_c (s : ExecutionState) : Nat := s.reg_bc % 256

def ExecutionState.set_reg_bc (s : ExecutionState) (value : Nat) : ExecutionState :=
  { s with reg_bc := value }

def ExecutionState.set_reg_b (s : ExecutionState) (value : Nat) : ExecutionState :=
  s.set_reg_bc ((s.reg_bc % 256) ||| (value <<< 8))

def ExecutionState.set_reg_c (s : ExecutionState) (value : Nat) : ExecutionState :=
  s.set_reg_bc ((s.reg_bc / 256 * 256) ||| value)  -- (reg_bc & 0xFF00) | value

def ExecutionState.reg_d (s : ExecutionState) : Nat := (s.reg_de / 256) % 256

def ExecutionState.reg_e (s : ExecutionState) : Nat := s.reg_de % 256

def ExecutionState.set_reg_de (s : ExecutionState) (value : Nat) : ExecutionState :=
  { s with reg_de := value }

def ExecutionState.set_reg_d (s : ExecutionState) (value : Nat) : ExecutionState :=
  s.set_reg_de ((s.reg_de % 256) ||| (value <<< 8))

def ExecutionState.set_reg_e (s : ExecutionState) (value : Nat) : ExecutionState :=
  s.set_reg_de ((s.reg_de / 256 * 256) ||| value)

def ExecutionState.reg_h (s : ExecutionState) : Nat := (s.reg_hl / 256) % 256

def ExecutionState.reg_l (s : ExecutionState) : Nat := s.reg_hl % 256

def ExecutionState.set_reg_hl (s : ExecutionState) (value : Nat) : ExecutionState :=
  { s with reg_hl := value }

def ExecutionState.set_reg_h (s : ExecutionState) (value : Nat) : ExecutionState :=
  s.set_reg_hl ((s.reg_hl % 256) ||| (value <<< 8))

def ExecutionState.set_reg_l (s : ExecutionState) (value : Nat) : ExecutionState :=
  s.set_reg_hl ((s.reg_hl / 256 * 256) ||| value)

/-! ## Interrupt controller (io/interrupts.rs) -/

/-- The five interrupt sources. -/
inductive Interrupt where
  | Joypad
  | Serial
  | Timer
  | Lcd
  | VBlank
deriving DecidableEq

/-- An `IORegister` is a plain stored byte; we inline it as `Nat`. -/
structure Interrupts where
  interrupt_flag : Nat
  interrupt_enable : Nat

def Interrupts.new : Interrupts :=
  { interrupt_flag := 0, interrupt_enable := 0 }

def Interrupts.highest_priority_triggered_interrupt (s : Interrupts) : Option Interrupt :=
  let triggered := s.interrupt_enable &&& s.interrupt_flag
  if (triggered &&& 0x1) ≠ 0 then some .VBlank
  else if (triggered &&& 0x2) ≠ 0 then some .Lcd
  else if (triggered &&& 0x4) ≠ 0 then some .Timer
  else if (triggered &&& 0x8) ≠ 0 then some .Serial
  else if (triggered &&& 0x10) ≠ 0 then some .Joypad
  else none

def Interrupt.bit : Interrupt → Nat
  | .VBlank => 1 <<< 0
  | .Lcd => 1 <<< 1
  | .Timer => 1 <<< 2
  | .Serial => 1 <<< 3
  | .Joypad => 1 <<< 4

/-- Clears a bit of IF: `interrupt_flag & !mask` (mask complemented within u8). -/
def Interrupts.clear_requested_interrupt (s : Interrupts) (interrupt : Interrupt) : Interrupts :=
  { s with interrupt_flag := s.interrupt_flag &&& (255 - interrupt.bit) }

def Interrupts.set_interrupt_requested (s : Interrupts) (interrupt : Interrupt) : Interrupts :=
  { s with interrupt_flag := s.interrupt_flag ||| interrupt.bit }

def Interrupts.read_interrupt_enable (s : Interrupts) : Nat :=
  s.interrupt_enable % 32  -- & 0x1f

def Interrupts.write_interrupt_enable (s : Interrupts) (value : Nat) : Interrupts :=
  { s with interrupt_enable := value % 32 }

def Interrupts.read_interrupt_flag (s : Interrupts) : Nat :=
  s.interrupt_flag % 32  -- & 0x1f

def Interrupts.write_interrupt_flag (s : Interrupts) (value : Nat) : Interrupts :=
  { s with interrupt_flag := value % 32 }

/-! ## Timer (io/timer.rs) -/

inductive ClockSelect where
  | Every256MCycles
  | Every4MCycles
  | Every16MCycles
  | Every64MCycles
deriving DecidableEq

def ClockSelect.cycles_value : ClockSelect → Nat
  | .Every256MCycles => 256
  | .Every4MCycles => 4
  | .Every16MCycles => 16
  | .Every64MCycles => 64

structure TimerControl where
  enable : Bool
  clock_select : ClockSelect
deriving DecidableEq

def TimerControl.new : TimerControl :=
  { enable := false, clock_select := .Every256MCycles }

structure Timer where
  divider : Nat
  timer_counter : Nat
  timer_modulo : Nat
  timer_control : TimerControl
  cycles : Nat
deriving DecidableEq

def Timer.new : Timer :=
  { divider := 0, timer_counter := 0, timer_modulo := 0,
    timer_control := TimerControl.new, cycles := 0 }

def Timer.read_divider (t : Timer) : Nat := t.divider

def Timer.set_divider (t : Timer) (value : Nat) : Timer := { t with divider := value }

def Timer.write_divider (t : Timer) (_value : Nat) : Timer := { t with divider := 0 }

def Timer.read_timer_counter (t : Timer) : Nat := t.timer_counter

def Timer.write_timer_counter (t : Timer) (value : Nat) : Timer :=
  { t with timer_counter := value }

def Timer.read_timer_modulo (t : Timer) : Nat := t.timer_modulo

def Timer.write_timer_modulo (t : Timer) (value : Nat) : Timer :=
  { t with timer_modulo := value }

def Timer.read_timer_control (t : Timer) : Nat :=
  let value := (if t.timer_control.enable then 1 else 0) <<< 2
  value ||| (match t.timer_control.clock_select with
    | .Every256MCycles => 0
    | .Every4MCycles => 1
    | .Every16MCycles => 2
    | .Every64MCycles => 3)

def Timer.write_timer_control (t : Timer) (value : Nat) : Timer :=
  { t with timer_control :=
    { enable := (value &&& 0x4) ≠ 0
      clock_select := match value &&& 0x3 with
        | 0 => .Every256MCycles
        | 1 => .Every4MCycles
        | 2 => .Every16MCycles
        | _ => .Every64MCycles } }

/-- Timer::step.  Returns the updated timer and the `bool` overflow report.
Note that the result of `overflowing_add` is discarded by the source (bound
to `_`): only the overflow flag is used, and the counter is written only on
overflow (reloaded from the modulo register). -/
def Timer.step (t : Timer) (cycles : Nat) : Timer × Bool :=
  let t := t.set_divider ((t.read_divider + cycles % 256) % 256) -- wrapping_add((cycles & 0xFF) as u8)
  if !t.timer_control.enable then
    (t, false)
  else
    let t := { t with cycles := t.cycles + cycles }
    let current_cycles_value := t.timer_control.clock_select.cycles_value
    let counter_increments := (t.cycles / current_cycles_value) % 256 -- as u8
    let t := { t with cycles := t.cycles % current_cycles_value }
    let overflowed := t.read_timer_counter + counter_increments ≥ 256
    let t := if overflowed then t.write_timer_counter t.read_timer_modulo else t
    (t, overflowed)

/-! ## Joypad (io/joypad.rs and the input types of lib.rs) -/

inductive DPadState where
  | None
  | Left
  | Up
  | Right
  | Down
  | LeftUp
  | RightUp
  | LeftDown
  | RightDown
deriving DecidableEq

def DPadState.is_left (s : DPadState) : Bool :=
  (s = .Left) || (s = .LeftDown) || (s = .LeftUp)

def DPadState.is_right (s : DPadState) : Bool :=
  (s = .Right) || (s = .RightDown) || (s = .RightUp)

def DPadState.is_up (s : DPadState) : Bool :=
  (s = .Up) || (s = .LeftUp) || (s = .RightUp)

def DPadState.is_down (s : DPadState) : Bool :=
  (s = .Down) || (s = .LeftDown) || (s = .RightDown)

structure InputState where
  a_pressed : Bool
  b_pressed : Bool
  start_pressed : Bool
  select_pressed : Bool
  dpad_state : DPadState
deriving DecidableEq

def InputState.empty : InputState :=
  { a_pressed := false, b_pressed := false, start_pressed := false,
    select_pressed := false, dpad_state := .None }

inductive InputSelection where
  | None
  | Buttons
  | DPad
  | Both
deriving DecidableEq

structure JoypadInput where
  selection : InputSelection
  inputs : InputState
  previous_inputs : InputState
deriving DecidableEq

def JoypadInput.new : JoypadInput :=
  { selection := .None, inputs := InputState.empty, previous_inputs := InputState.empty }

def JoypadInput.read_dpad (_j : JoypadInput) (state : InputState) : Nat :=
  let value := 0
  let value := value ||| (if state.dpad_state.is_down then 0 else 1 <<< 3)
  let value := value ||| (if state.dpad_state.is_up then 0 else 1 <<< 2)
  let value := value ||| (if state.dpad_state.is_left then 0 else 1 <<< 1)
  value ||| (if state.dpad_state.is_right then 0 else 1 <<< 0)

def JoypadInput.read_buttons (_j : JoypadInput) (state : InputState) : Nat :=
  let value := 0
  let value := value ||| (if state.start_pressed then 0 else 1 <<< 3)
  let value := value ||| (if state.select_pressed then 0 else 1 <<< 2)
  let value := value ||| (if state.b_pressed then 0 else 1 <<< 1)
  value ||| (if state.a_pressed then 0 else 1 <<< 0)

def JoypadInput.read_state (j : JoypadInput) (state : InputState) : Nat :=
  match j.selection with
  | .Buttons => j.read_buttons state
  | .DPad => j.read_dpad state
  | .Both => j.read_buttons state &&& j.read_dpad state
  | .None => 0xcf

/-- JoypadInput::input_changed: scans bits 0..8 for a `before = 0, now = 1`
transition (written in the source as a loop with an early return). -/
def JoypadInput.input_changed (j : JoypadInput) : Bool :=
  let before := j.read_state j.previous_inputs
  let now := j.read_state j.inputs
  (List.range 8).any fun i =>
    let mask := 1 <<< i
    (before &&& mask = 0) && ((now &&& mask) ≠ 0)

def JoypadInput.update_inputs (j : JoypadInput) (input_state : InputState) : JoypadInput :=
  { j with previous_inputs := j.inputs, inputs := input_state }

def JoypadInput.step (j : JoypadInput) (input_state : InputState) : JoypadInput × Bool :=
  let j := j.update_inputs input_state
  (j, j.input_changed)

def JoypadInput.write (j : JoypadInput) (value : Nat) : JoypadInput :=
  let masked := ((255 - value % 256) &&& 0x30) >>> 4  -- (!value & 0x30) >> 4
  { j with selection := match masked with
    | 0 => .None
    | 1 => .DPad
    | 2 => .Buttons
    | _ => .Both }

def JoypadInput.read (j : JoypadInput) : Nat :=
  j.read_state j.inputs

/-! ## Serial port registers (io/serial.rs) -/

structure Serial where
  data : Nat
  control : Nat
deriving DecidableEq

def Serial.new : Serial := { data := 0, control := 0 }

def Serial.write_data (s : Serial) (value : Nat) : Serial := { s with data := value }

def Serial.read_data (s : Serial) : Nat := s.data

def Serial.write_control (s : Serial) (value : Nat) : Serial := { s with control := value }

def Serial.read_control (s : Serial) : Nat := s.control

/-! ## APU register storage (io/audio.rs); registers are stored, not synthesized.
The struct the source names `Audio` is embedded as `AudioRegs`. -/

structure AudioChannel1 where
  sweep : Nat
  length_timer_and_duty_cycle : Nat
  volume_and_envelope : Nat
  period_low : Nat
  period_high_and_control : Nat
deriving DecidableEq

def AudioChannel1.new : AudioChannel1 :=
  { sweep := 0, length_timer_and_duty_cycle := 0, volume_and_envelope := 0,
    period_low := 0, period_high_and_control := 0 }

def AudioChannel1.read_sweep (c : AudioChannel1) : Nat := c.sweep

def AudioChannel1.write_sweep (c : AudioChannel1) (v : Nat) : AudioChannel1 :=
  { c with sweep := v }

def AudioChannel1.read_length_timer_and_duty_cycle (c : AudioChannel1) : Nat :=
  c.length_timer_and_duty_cycle

def AudioChannel1.write_length_timer_and_duty_cycle (c : AudioChannel1) (v : Nat) : AudioChannel1 :=
  { c with length_timer_and_duty_cycle := v }

def AudioChannel1.read_volume_and_envelope (c : AudioChannel1) : Nat := c.volume_and_envelope

def AudioChannel1.write_volume_and_envelope (c : AudioChannel1) (v : Nat) : AudioChannel1 :=
  { c with volume_and_envelope := v }

/-- The source's `read_period_low` returns the constant 0 (write-only register). -/
def AudioChannel1.read_period_low (_c : AudioChannel1) : Nat := 0

def AudioChannel1.write_period_low (c : AudioChannel1) (v : Nat) : AudioChannel1 :=
  { c with period_low := v }

def AudioChannel1.read_period_high_and_control (c : AudioChannel1) : Nat :=
  c.period_high_and_control

def AudioChannel1.write_period_high_and_control (c : AudioChannel1) (v : Nat) : AudioChannel1 :=
  { c with period_high_and_control := v }

structure AudioChannel2 where
  length_timer_and_duty_cycle : Nat
  volume_and_envelope : Nat
  period_low : Nat
  period_high_and_control : Nat
deriving DecidableEq

def AudioChannel2.new : AudioChannel2 :=
  { length_timer_and_duty_cycle := 0, volume_and_envelope := 0,
    period_low := 0, period_high_and_control := 0 }

def AudioChannel2.read_length_timer_and_duty_cycle (c : AudioChannel2) : Nat :=
  c.length_timer_and_duty_cycle

def AudioChannel2.write_length_timer_and_duty_cycle (c : AudioChannel2) (v : Nat) : AudioChannel2 :=
  { c with length_timer_and_duty_cycle := v }

def AudioChannel2.read_volume_and_envelope (c : AudioChannel2) : Nat := c.volume_and_envelope

def AudioChannel2.write_volume_and_envelope (c : AudioChannel2) (v : Nat) : AudioChannel2 :=
  { c with volume_and_envelope := v }

def AudioChannel2.read_period_low (_c : AudioChannel2) : Nat := 0

def AudioChannel2.write_period_low (c : AudioChannel2) (v : Nat) : AudioChannel2 :=
  { c with period_low := v }

def AudioChannel2.read_period_high_and_control (c : AudioChannel2) : Nat :=
  c.period_high_and_control

def AudioChannel2.write_period_high_and_control (c : AudioChannel2) (v : Nat) : AudioChannel2 :=
  { c with period_high_and_control := v }

structure AudioChannel3 where
  dac_enable : Bool
  length_timer : Nat
  output_level : Nat
  period_low : Nat
  period_high_and_control : Nat
  wave_pattern_ram : Nat → Nat  -- [u8; 16]

def AudioChannel3.new : AudioChannel3 :=
  { dac_enable := false, length_timer := 0, output_level := 0,
    period_low := 0, period_high_and_control := 0, wave_pattern_ram := fun _ => 0 }

def AudioChannel3.read_dac_enable (c : AudioChannel3) : Nat :=
  if c.dac_enable then 1 <<< 7 else 0

def AudioChannel3.write_dac_enable (c : AudioChannel3) (v : Nat) : AudioChannel3 :=
  { c with dac_enable := (v &&& (1 <<< 7)) ≠ 0 }

def AudioChannel3.read_length_timer (c : AudioChannel3) : Nat := c.length_timer

def AudioChannel3.write_length_timer (c : AudioChannel3) (v : Nat) : AudioChannel3 :=
  { c with length_timer := v }

def AudioChannel3.read_output_level (c : AudioChannel3) : Nat := c.output_level

def AudioChannel3.write_output_level (c : AudioChannel3) (v : Nat) : AudioChannel3 :=
  { c with output_level := v }

def AudioChannel3.read_period_low (_c : AudioChannel3) : Nat := 0

def AudioChannel3.write_period_low (c : AudioChannel3) (v : Nat) : AudioChannel3 :=
  { c with period_low := v }

def AudioChannel3.read_period_high_and_control (c : AudioChannel3) : Nat :=
  c.period_high_and_control

def AudioChannel3.write_period_high_and_control (c : AudioChannel3) (v : Nat) : AudioChannel3 :=
  { c with period_high_and_control := v }

def AudioChannel3.read_wave_pattern_ram (c : AudioChannel3) (index : Nat) : Nat :=
  c.wave_pattern_ram index

def AudioChannel3.write_wave_pattern_ram (c : AudioChannel3) (index v : Nat) : AudioChannel3 :=
  { c with wave_pattern_ram := fun i => if i = index then v else c.wave_pattern_ram i }

structure AudioChannel4 where
  length_timer : Nat
  volume_and_envelope : Nat
  frequency_and_randomness : Nat
  control : Nat
deriving DecidableEq

def AudioChannel4.new : AudioChannel4 :=
  { length_timer := 0, volume_and_envelope := 0, frequency_and_randomness := 0, control := 0 }

/-- The source's channel-4 `read_length_timer` returns the constant 0. -/
def AudioChannel4.read_length_timer (_c : AudioChannel4) : Nat := 0

def AudioChannel4.write_length_timer (c : AudioChannel4) (v : Nat) : AudioChannel4 :=
  { c with length_timer := v }

def AudioChannel4.read_volume_and_envelope (c : AudioChannel4) : Nat := c.volume_and_envelope

def AudioChannel4.write_volume_and_envelope (c : AudioChannel4) (v : Nat) : AudioChannel4 :=
  { c with volume_and_envelope := v }

def AudioChannel4.read_frequency_and_randomness (c : AudioChannel4) : Nat :=
  c.frequency_and_randomness

def AudioChannel4.write_frequency_and_randomness (c : AudioChannel4) (v : Nat) : AudioChannel4 :=
  { c with frequency_and_randomness := v }

def AudioChannel4.read_control (c : AudioChannel4) : Nat := c.control

def AudioChannel4.write_control (c : AudioChannel4) (v : Nat) : AudioChannel4 :=
  { c with control := v }

structure AudioRegs where
  audio_master_control : Nat
  sound_panning : Nat
  master_volume_vin_panning : Nat
  channel_1 : AudioChannel1
  channel_2 : AudioChannel2
  channel_3 : AudioChannel3
  channel_4 : AudioChannel4

def AudioRegs.new : AudioRegs :=
  { audio_master_control := 0, sound_panning := 0, master_volume_vin_panning := 0,
    channel_1 := AudioChannel1.new, channel_2 := AudioChannel2.new,
    channel_3 := AudioChannel3.new, channel_4 := AudioChannel4.new }

def AudioRegs.read_audio_master_control (a : AudioRegs) : Nat := a.audio_master_control

def AudioRegs.write_audio_master_control (a : AudioRegs) (v : Nat) : AudioRegs :=
  { a with audio_master_control := v }

def AudioRegs.read_sound_panning (a : AudioRegs) : Nat := a.sound_panning

def AudioRegs.write_sound_panning (a : AudioRegs) (v : Nat) : AudioRegs :=
  { a with sound_panning := v }

def AudioRegs.read_master_volume_vin_panning (a : AudioRegs) : Nat :=
  a.master_volume_vin_panning

def AudioRegs.write_master_volume_vin_panning (a : AudioRegs) (v : Nat) : AudioRegs :=
  { a with master_volume_vin_panning := v }

/-! ## LCD register block (io/lcd.rs) and the PPU mode enum (ppu/mod.rs) -/

inductive PpuMode where
  | HBlank
  | VBlank
  | OAMScan
  | PixelDraw
deriving DecidableEq

def PpuMode.toU8 : PpuMode → Nat
  | .HBlank => 0
  | .VBlank => 1
  | .OAMScan => 2
  | .PixelDraw => 3

inductive TileMapArea where
  | Upper
  | Lower
deriving DecidableEq

def TileMapArea.toU8 : TileMapArea → Nat
  | .Lower => 0
  | .Upper => 1

def TileMapArea.fromU8 (value : Nat) : TileMapArea :=
  match value with
  | 0 => .Lower
  | _ => .Upper

inductive TileDataArea where
  | Upper
  | Lower
deriving DecidableEq

def TileDataArea.toU8 : TileDataArea → Nat
  | .Lower => 0
  | .Upper => 1

def TileDataArea.fromU8 (value : Nat) : TileDataArea :=
  match value with
  | 0 => .Lower
  | _ => .Upper

inductive ObjSize where
  | Single
  | Double
deriving DecidableEq

def ObjSize.toU8 : ObjSize → Nat
  | .Single => 0
  | .Double => 1

def ObjSize.fromU8 (value : Nat) : ObjSize :=
  match value with
  | 0 => .Single
  | _ => .Double

inductive Color where
  | White
  | LightGray
  | DarkGray
  | Black
deriving DecidableEq

def Color.fromU8 (value : Nat) : Color :=
  match value with
  | 0 => .White
  | 1 => .LightGray
  | 2 => .DarkGray
  | _ => .Black

def Color.toU8 : Color → Nat
  | .White => 0
  | .LightGray => 1
  | .DarkGray => 2
  | .Black => 3

structure Palette where
  id0 : Color
  id1 : Color
  id2 : Color
  id3 : Color
deriving DecidableEq

def Palette.fromU8 (value : Nat) : Palette :=
  { id0 := Color.fromU8 (value % 4)            -- value & 0b11
    id1 := Color.fromU8 ((value / 4) % 4)      -- (value >> 2) & 0b11
    id2 := Color.fromU8 ((value / 16) % 4)     -- (value >> 4) & 0b11
    id3 := Color.fromU8 ((value / 64) % 4) }   -- (value >> 6) & 0b11

def Palette.toU8 (value : Palette) : Nat :=
  let v := 0
  let v := v ||| value.id0.toU8
  let v := v ||| (value.id1.toU8 <<< 2)
  let v := v ||| (value.id2.toU8 <<< 4)
  v ||| (value.id3.toU8 <<< 6)

/-- impl Default for Palette. -/
def Palette.default : Palette :=
  { id0 := .White, id1 := .LightGray, id2 := .DarkGray, id3 := .Black }

structure LcdStatus where
  lyc_interrupt_select : Bool
  mode_2_interrupt_select : Bool
  mode_1_interrupt_select : Bool
  mode_0_interrupt_select : Bool
  lyc_equals_ly : Bool
  ppu_mode : PpuMode
deriving DecidableEq

def LcdStatus.new : LcdStatus :=
  { lyc_interrupt_select := false, mode_2_interrupt_select := false,
    mode_1_interrupt_select := false, mode_0_interrupt_select := false,
    lyc_equals_ly := false, ppu_mode := .HBlank }

/-- LcdStatus::set_from_u8.  The source invokes the `unimplemented` macro
(a panic) when any of the mode 0/1/2 interrupt-select bits is written. -/
def LcdStatus.set_from_u8 (s : LcdStatus) (value : Nat) : Except Error LcdStatus :=
  let s := { s with
    lyc_interrupt_select := (value &&& (1 <<< 6)) ≠ 0
    mode_2_interrupt_select := (value &&& (1 <<< 5)) ≠ 0
    mode_1_interrupt_select := (value &&& (1 <<< 4)) ≠ 0
    mode_0_interrupt_select := (value &&& (1 <<< 3)) ≠ 0 }
  if s.mode_0_interrupt_select || s.mode_1_interrupt_select || s.mode_2_interrupt_select then
    .error .Panic
  else
    .ok s

def LcdStatus.toU8 (value : LcdStatus) : Nat :=
  let v := 0
  let v := v ||| (if value.lyc_interrupt_select then 1 <<< 6 else 0)
  let v := v ||| (if value.mode_2_interrupt_select then 1 <<< 5 else 0)
  let v := v ||| (if value.mode_1_interrupt_select then 1 <<< 4 else 0)
  let v := v ||| (if value.mode_0_interrupt_select then 1 <<< 3 else 0)
  let v := v ||| (if value.lyc_equals_ly then 1 <<< 2 else 0)
  v ||| value.ppu_mode.toU8

structure LcdControl where
  lcd_and_ppu_enable : Bool
  window_tile_map : TileMapArea
  window_enable : Bool
  bg_and_window_data : TileDataArea
  bg_tile_map : TileMapArea
  obj_size : ObjSize
  obj_enable : Bool
  bg_and_window_enable : Bool
deriving DecidableEq

def LcdControl.new : LcdControl :=
  { lcd_and_ppu_enable := false, window_tile_map := .Lower, window_enable := false,
    bg_and_window_data := .Lower, bg_tile_map := .Lower, obj_size := .Single,
    obj_enable := false, bg_and_window_enable := false }

def LcdControl.set_from_u8 (c : LcdControl) (value : Nat) : LcdControl :=
  { c with
    lcd_and_ppu_enable := (value &&& (1 <<< 7)) ≠ 0
    window_tile_map := TileMapArea.fromU8 ((value / 64) % 2)   -- (value >> 6) & 1
    window_enable := (value &&& (1 <<< 5)) ≠ 0
    bg_and_window_data := TileDataArea.fromU8 ((value / 16) % 2)
    bg_tile_map := TileMapArea.fromU8 ((value / 8) % 2)
    obj_size := ObjSize.fromU8 ((value / 4) % 2)
    obj_enable := (value &&& (1 <<< 1)) ≠ 0
    bg_and_window_enable := (value &&& 1) ≠ 0 }

def LcdControl.toU8 (value : LcdControl) : Nat :=
  let v := 0
  let v := v ||| (if value.lcd_and_ppu_enable then 1 <<< 7 else 0)
  let v := v ||| (value.window_tile_map.toU8 <<< 6)
  let v := v ||| (if value.window_enable then 1 <<< 5 else 0)
  let v := v ||| (value.bg_and_window_data.toU8 <<< 4)
  let v := v ||| (value.bg_tile_map.toU8 <<< 3)
  let v := v ||| (value.obj_size.toU8 <<< 2)
  let v := v ||| (if value.obj_enable then 1 <<< 1 else 0)
  v ||| (if value.bg_and_window_enable then 1 else 0)

structure Lcd where
  control : LcdControl
  lcd_y : Nat
  lcd_y_compare : Nat
  status : LcdStatus
  scroll_y : Nat
  scroll_x : Nat
  window_y : Nat
  window_x : Nat
  background_palette : Palette
  obj_palette_0 : Palette
  obj_palette_1 : Palette
deriving DecidableEq

def Lcd.new : Lcd :=
  { control := LcdControl.new, lcd_y := 0, lcd_y_compare := 0, status := LcdStatus.new,
    scroll_y := 0, scroll_x := 0, window_y := 0, window_x := 0,
    background_palette := Palette.default, obj_palette_0 := Palette.default,
    obj_palette_1 := Palette.default }

def Lcd.read_control (l : Lcd) : Nat := l.control.toU8

def Lcd.write_control (l : Lcd) (value : Nat) : Lcd :=
  { l with control := l.control.set_from_u8 value }

def Lcd.update_lcd_y (l : Lcd) (value : Nat) : Lcd :=
  let l := { l with lcd_y := value }
  { l with status := { l.status with lyc_equals_ly := l.lcd_y = l.lcd_y_compare } }

def Lcd.read_lcd_y (l : Lcd) : Nat := l.lcd_y

def Lcd.write_lcd_y (l : Lcd) (value : Nat) : Lcd := { l with lcd_y := value }

def Lcd.read_lcd_y_compare (l : Lcd) : Nat := l.lcd_y_compare

def Lcd.write_lcd_y_compare (l : Lcd) (value : Nat) : Lcd := { l with lcd_y_compare := value }

def Lcd.read_status (l : Lcd) : Nat := l.status.toU8

def Lcd.write_status (l : Lcd) (value : Nat) : Except Error Lcd :=
  (l.status.set_from_u8 value).map fun s => { l with status := s }

def Lcd.read_scroll_y (l : Lcd) : Nat := l.scroll_y

def Lcd.write_scroll_y (l : Lcd) (value : Nat) : Lcd := { l with scroll_y := value }

def Lcd.read_scroll_x (l : Lcd) : Nat := l.scroll_x

def Lcd.write_scroll_x (l : Lcd) (value : Nat) : Lcd := { l with scroll_x := value }

def Lcd.read_window_y (l : Lcd) : Nat := l.window_y

def Lcd.write_window_y (l : Lcd) (value : Nat) : Lcd := { l with window_y := value }

def Lcd.read_window_x (l : Lcd) : Nat := l.window_x

def Lcd.write_window_x (l : Lcd) (value : Nat) : Lcd := { l with window_x := value }

def Lcd.read_background_palette (l : Lcd) : Nat := l.background_palette.toU8

def Lcd.write_background_palette (l : Lcd) (value : Nat) : Lcd :=
  { l with background_palette := Palette.fromU8 value }

def Lcd.read_obj_palette_0 (l : Lcd) : Nat := l.obj_palette_0.toU8

def Lcd.write_obj_palette_0 (l : Lcd) (value : Nat) : Lcd :=
  { l with obj_palette_0 := Palette.fromU8 value }

def Lcd.read_obj_palette_1 (l : Lcd) : Nat := l.obj_palette_1.toU8

def Lcd.write_obj_palette_1 (l : Lcd) (value : Nat) : Lcd :=
  { l with obj_palette_1 := Palette.fromU8 value }

/-! ## DMA controller (io/dma.rs) -/

def DMA_TRANSFER_CYCLES_LENGTH : Nat := 160

structure DMAController where
  transferring : Bool
  source_address : Nat
  cycles_in : Nat
  source_reg : Nat
deriving DecidableEq

def DMAController.new : DMAController :=
  { transferring := false, source_address := 0, cycles_in := 0, source_reg := 0 }

def DMAController.read_source_address (d : DMAController) : Nat := d.source_reg

def DMAController.full_source_address (d : DMAController) : Nat := d.source_address

def DMAController.start_new_transfer (d : DMAController) (source : Nat) : DMAController :=
  { d with transferring := true, source_address := source * 0x100,
           source_reg := source, cycles_in := 0 }

/-- DMAController::step.  Note the source adds `now` (not `cycles`) to
`cycles_in` in the not-yet-finished branch, as written. -/
def DMAController.step (d : DMAController) (cycles : Nat) : DMAController × Bool :=
  if d.transferring then
    let now := (d.cycles_in + cycles) % 65536  -- u16 addition
    if now > DMA_TRANSFER_CYCLES_LENGTH then
      ({ d with cycles_in := 0, transferring := false }, true)
    else
      ({ d with cycles_in := (d.cycles_in + now) % 65536 }, false)
  else
    (d, false)

/-! ## The memory-mapped I/O block (io/mod.rs).  The struct the source names
`IO` is embedded as `IORegs`. -/

structure IORegs where
  joypad_input : JoypadInput
  lcd : Lcd
  serial : Serial
  audio_regs : AudioRegs  -- field `audio` in the source
  timer : Timer
  interrupts : Interrupts
  dma : DMAController
  boot_rom_enable : Nat

def IORegs.new : IORegs :=
  { joypad_input := JoypadInput.new, lcd := Lcd.new, serial := Serial.new,
    audio_regs := AudioRegs.new, timer := Timer.new, interrupts := Interrupts.new,
    dma := DMAController.new, boot_rom_enable := 0 }

/-- IO::read_u8: the I/O register dispatcher for `FF00..FF7F` plus `FF0F`/`FFFF`. -/
def IORegs.read_u8 (io_regs : IORegs) (address : Nat) : Except Error Nat :=
  if address = 0xFF00 then .ok io_regs.joypad_input.read
  else if address = 0xFF01 then .ok io_regs.serial.read_data
  else if address = 0xFF02 then .ok io_regs.serial.read_control
  else if address = 0xFF04 then .ok io_regs.timer.read_divider
  else if address = 0xFF05 then .ok io_regs.timer.read_timer_counter
  else if address = 0xFF06 then .ok io_regs.timer.read_timer_modulo
  else if address = 0xFF07 then .ok io_regs.timer.read_timer_control
  else if address = 0xFF10 then .ok io_regs.audio_regs.channel_1.read_sweep
  else if address = 0xFF11 then .ok io_regs.audio_regs.channel_1.read_length_timer_and_duty_cycle
  else if address = 0xFF12 then .ok io_regs.audio_regs.channel_1.read_volume_and_envelope
  else if address = 0xFF13 then .ok io_regs.audio_regs.channel_1.read_period_low
  else if address = 0xFF14 then .ok io_regs.audio_regs.channel_1.read_period_high_and_control
  else if address = 0xFF16 then .ok io_regs.audio_regs.channel_2.read_length_timer_and_duty_cycle
  else if address = 0xFF17 then .ok io_regs.audio_regs.channel_2.read_volume_and_envelope
  else if address = 0xFF18 then .ok io_regs.audio_regs.channel_2.read_period_low
  else if address = 0xFF19 then .ok io_regs.audio_regs.channel_2.read_period_high_and_control
  else if address = 0xFF1A then .ok io_regs.audio_regs.channel_3.read_dac_enable
  else if address = 0xFF1B then .ok io_regs.audio_regs.channel_3.read_length_timer
  else if address = 0xFF1C then .ok io_regs.audio_regs.channel_3.read_output_level
  else if address = 0xFF1D then .ok io_regs.audio_regs.channel_3.read_period_low
  else if address = 0xFF1E then .ok io_regs.audio_regs.channel_3.read_period_high_and_control
  else if address = 0xFF20 then .ok io_regs.audio_regs.channel_4.read_length_timer
  else if address = 0xFF21 then .ok io_regs.audio_regs.channel_4.read_volume_and_envelope
  else if address = 0xFF22 then .ok io_regs.audio_regs.channel_4.read_frequency_and_randomness
  else if address = 0xFF23 then .ok io_regs.audio_regs.channel_4.read_control
  else if 0xFF30 ≤ address ∧ address ≤ 0xFF3F then
    .ok (io_regs.audio_regs.channel_3.read_wave_pattern_ram (address - 0xFF30))
  else if address = 0xFF24 then .ok io_regs.audio_regs.read_master_volume_vin_panning
  else if address = 0xFF25 then .ok io_regs.audio_regs.read_sound_panning
  else if address = 0xFF26 then .ok io_regs.audio_regs.read_audio_master_control
  else if address = 0xFF40 then .ok io_regs.lcd.read_control
  else if address = 0xFF41 then .ok io_regs.lcd.read_status
  else if address = 0xFF42 then .ok io_regs.lcd.read_scroll_y
  else if address = 0xFF43 then .ok io_regs.lcd.read_scroll_x
  else if address = 0xFF44 then .ok io_regs.lcd.read_lcd_y
  else if address = 0xFF45 then .ok io_regs.lcd.read_lcd_y_compare
  else if address = 0xFF46 then .ok io_regs.dma.read_source_address
  else if address = 0xFF47 then .ok io_regs.lcd.read_background_palette
  else if address = 0xFF48 then .ok io_regs.lcd.read_obj_palette_0
  else if address = 0xFF49 then .ok io_regs.lcd.read_obj_palette_1
  else if address = 0xFF4A then .ok io_regs.lcd.read_window_y
  else if address = 0xFF4B then .ok io_regs.lcd.read_window_x
  else if address = 0xFF50 then .ok io_regs.boot_rom_enable
  else if address = 0xFF0F then .ok io_regs.interrupts.read_interrupt_flag
  else if address = 0xFFFF then .ok io_regs.interrupts.read_interrupt_enable
  else .error (.MemoryReadFault address)

/-- IO::write_u8. -/
def IORegs.write_u8 (io_regs : IORegs) (address data : Nat) : Except Error IORegs :=
  if address = 0xFF00 then .ok { io_regs with joypad_input := io_regs.joypad_input.write data }
  else if address = 0xFF01 then .ok { io_regs with serial := io_regs.serial.write_data data }
  else if address = 0xFF02 then .ok { io_regs with serial := io_regs.serial.write_control data }
  else if address = 0xFF04 then .ok { io_regs with timer := io_regs.timer.write_divider data }
  else if address = 0xFF05 then .ok { io_regs with timer := io_regs.timer.write_timer_counter data }
  else if address = 0xFF06 then .ok { io_regs with timer := io_regs.timer.write_timer_modulo data }
  else if address = 0xFF07 then .ok { io_regs with timer := io_regs.timer.write_timer_control data }
  else if address = 0xFF10 then .ok { io_regs with audio_regs :=
    { io_regs.audio_regs with channel_1 := io_regs.audio_regs.channel_1.write_sweep data } }
  else if address = 0xFF11 then .ok { io_regs with audio_regs :=
    { io_regs.audio_regs with channel_1 := io_regs.audio_regs.channel_1.write_length_timer_and_duty_cycle data } }
  else if address = 0xFF12 then .ok { io_regs with audio_regs :=
    { io_regs.audio_regs with channel_1 := io_regs.audio_regs.channel_1.write_volume_and_envelope data } }
  else if address = 0xFF13 then .ok { io_regs with audio_regs :=
    { io_regs.audio_regs with channel_1 := io_regs.audio_regs.channel_1.write_period_low data } }
  else if address = 0xFF14 then .ok { io_regs with audio_regs :=
    { io_regs.audio_regs with channel_1 := io_regs.audio_regs.channel_1.write_period_high_and_control data } }
  else if address = 0xFF16 then .ok { io_regs with audio_regs :=
    { io_regs.audio_regs with channel_2 := io_regs.audio_regs.channel_2.write_length_timer_and_duty_cycle data } }
  else if address = 0xFF17 then .ok { io_regs with audio_regs :=
    { io_regs.audio_regs with channel_2 := io_regs.audio_regs.channel_2.write_volume_and_envelope data } }
  else if address = 0xFF18 then .ok { io_regs with audio_regs :=
    { io_regs.audio_regs with channel_2 := io_regs.audio_regs.channel_2.write_period_low data } }
  else if address = 0xFF19 then .ok { io_regs with audio_regs :=
    { io_regs.audio_regs with channel_2 := io_regs.audio_regs.channel_2.write_period_high_and_control data } }
  else if address = 0xFF1A then .ok { io_regs with audio_regs :=
    { io_regs.audio_regs with channel_3 := io_regs.audio_regs.channel_3.write_dac_enable data } }
  else if address = 0xFF1B then .ok { io_regs with audio_regs :=
    { io_regs.audio_regs with channel_3 := io_regs.audio_regs.channel_3.write_length_timer data } }
  else if address = 0xFF1C then .ok { io_regs with audio_regs :=
    { io_regs.audio_regs with channel_3 := io_regs.audio_regs.channel_3.write_output_level data } }
  else if address = 0xFF1D then .ok { io_regs with audio_regs :=
    { io_regs.audio_regs with channel_3 := io_regs.audio_regs.channel_3.write_period_low data } }
  else if address = 0xFF1E then .ok { io_regs with audio_regs :=
    { io_regs.audio_regs with channel_3 := io_regs.audio_regs.channel_3.write_period_high_and_control data } }
  else if address = 0xFF20 then .ok { io_regs with audio_regs :=
    { io_regs.audio_regs with channel_4 := io_regs.audio_regs.channel_4.write_length_timer data } }
  else if address = 0xFF21 then .ok { io_regs with audio_regs :=
    { io_regs.audio_regs with channel_4 := io_regs.audio_regs.channel_4.write_volume_and_envelope data } }
  else if address = 0xFF22 then .ok { io_regs with audio_regs :=
    { io_regs.audio_regs with channel_4 := io_regs.audio_regs.channel_4.write_frequency_and_randomness data } }
  else if address = 0xFF23 then .ok { io_regs with audio_regs :=
    { io_regs.audio_regs with channel_4 := io_regs.audio_regs.channel_4.write_control data } }
  else if 0xFF30 ≤ address ∧ address ≤ 0xFF3F then .ok { io_regs with audio_regs :=
    { io_regs.audio_regs with channel_3 :=
        io_regs.audio_regs.channel_3.write_wave_pattern_ram (address - 0xFF30) data } }
  else if address = 0xFF24 then
    .ok { io_regs with audio_regs := io_regs.audio_regs.write_master_volume_vin_panning data }
  else if address = 0xFF25 then
    .ok { io_regs with audio_regs := io_regs.audio_regs.write_sound_panning data }
  else if address = 0xFF26 then
    .ok { io_regs with audio_regs := io_regs.audio_regs.write_audio_master_control data }
  else if address = 0xFF40 then .ok { io_regs with lcd := io_regs.lcd.write_control data }
  else if address = 0xFF41 then
    (io_regs.lcd.write_status data).map fun l => { io_regs with lcd := l }
  else if address = 0xFF42 then .ok { io_regs with lcd := io_regs.lcd.write_scroll_y data }
  else if address = 0xFF43 then .ok { io_regs with lcd := io_regs.lcd.write_scroll_x data }
  else if address = 0xFF44 then .ok io_regs  -- writing is not enabled for the LCD Y register
  else if address = 0xFF45 then .ok { io_regs with lcd := io_regs.lcd.write_lcd_y_compare data }
  else if address = 0xFF46 then .ok { io_regs with dma := io_regs.dma.start_new_transfer data }
  else if address = 0xFF47 then .ok { io_regs with lcd := io_regs.lcd.write_background_palette data }
  else if address = 0xFF48 then .ok { io_regs with lcd := io_regs.lcd.write_obj_palette_0 data }
  else if address = 0xFF49 then .ok { io_regs with lcd := io_regs.lcd.write_obj_palette_1 data }
  else if address = 0xFF4A then .ok { io_regs with lcd := io_regs.lcd.write_window_y data }
  else if address = 0xFF4B then .ok { io_regs with lcd := io_regs.lcd.write_window_x data }
  else if address = 0xFF50 then .ok { io_regs with boot_rom_enable := data }
  else if address = 0xFF0F then
    .ok { io_regs with interrupts := io_regs.interrupts.write_interrupt_flag data }
  else if address = 0xFFFF then
    .ok { io_regs with interrupts := io_regs.interrupts.write_interrupt_enable data }
  else .error (.MemoryWriteFault address data)

/-! ## RAMs (memory/ram.rs).  The byte arrays are embedded as functions from
offsets to bytes; the bus only ever calls these with in-range addresses. -/

structure HighRam where
  contents : Nat → Nat  -- [u8; 127]

def HighRam.new : HighRam := { contents := fun _ => 0 }

def HighRam.read_u8 (r : HighRam) (address : Nat) : Nat :=
  r.contents (address - 0xFF80)

def HighRam.write_u8 (r : HighRam) (address data : Nat) : HighRam :=
  { contents := fun i => if i = address - 0xFF80 then data else r.contents i }

structure WorkRam where
  contents : Nat → Nat  -- [u8; 8192]

def WorkRam.new : WorkRam := { contents := fun _ => 0 }

def WorkRam.read_u8 (r : WorkRam) (address : Nat) : Nat :=
  r.contents (address - 0xC000)

def WorkRam.write_u8 (r : WorkRam) (address data : Nat) : WorkRam :=
  { contents := fun i => if i = address - 0xC000 then data else r.contents i }

/-! ## Boot ROM (boot/mod.rs) and cartridge ROM banks (cartridge/mod.rs). -/

structure BootRom where
  contents : Nat → Nat  -- [u8; 256]

/-- Cartridge ROM banks.  In the source each bank is `[u8; 512]` (a bus read
of `0x0100..0x3FFF` past that length would panic); only the bank contents are
carried here, the parsed header is not used by the core paths. -/
structure Cartridge where
  bank0 : Nat → Nat
  bank1 : Nat → Nat

/-! ## VRAM (ppu/vram.rs) -/

/-- A tile: 16 bytes (2 per row). -/
structure Tile where
  data : Nat → Nat

def Tile.zeroed : Tile := { data := fun _ => 0 }

/-- Tile::as_color_ids: pixel (row, col) has low bit from byte `2*row` and
high bit from byte `2*row + 1`, at bit position `7 - col`. -/
def Tile.as_color_ids (t : Tile) (row_idx col_idx : Nat) : Nat :=
  let lo := t.data (row_idx * 2)
  let hi := t.data (row_idx * 2 + 1)
  ((lo / 2 ^ (7 - col_idx)) % 2) ||| (((hi / 2 ^ (7 - col_idx)) % 2) <<< 1)

structure VramBank where
  tiles : Nat → Tile  -- [Tile; 384]
  map0 : Nat → Nat    -- [TileId; 1024], TileId is a newtype over u8
  map1 : Nat → Nat

def VramBank.zeroed : VramBank :=
  { tiles := fun _ => Tile.zeroed, map0 := fun _ => 0, map1 := fun _ => 0 }

def TILE_MAP_OFFSET : Nat := 0x1800

def TILE_MAP_SIZE : Nat := 0x0400

/-- The source wraps the bank in `Rc<RefCell<..>>`; single-threaded state
passing makes that explicit here. -/
structure Vram where
  inner : VramBank

def Vram.new : Vram := { inner := VramBank.zeroed }

/-- Vram read (impl Bus for Vram, vram.rs).  The default arm constructs an
`Error::MemoryFault`, a variant that does not exist in cpu/error.rs (revision
mismatch); it is unreachable from the bus dispatcher and rendered here as
`MemoryReadFault`. -/
def Vram.read_u8 (v : Vram) (address : Nat) : Except Error Nat :=
  let vram_addr := address - 0x8000
  if vram_addr ≤ 0x17FF then
    .ok ((v.inner.tiles (vram_addr / 16)).data (vram_addr % 16))
  else if vram_addr ≤ 0x1BFF then
    .ok (v.inner.map0 (vram_addr - TILE_MAP_OFFSET))
  else if vram_addr ≤ 0x1FFF then
    .ok (v.inner.map1 (vram_addr - TILE_MAP_OFFSET - TILE_MAP_SIZE))
  else
    .error (.MemoryReadFault address)

def Vram.write_u8 (v : Vram) (address data : Nat) : Except Error Vram :=
  let vram_addr := address - 0x8000
  if vram_addr ≤ 0x17FF then
    let tile_index := vram_addr / 16
    let pixel_index := vram_addr % 16
    let tile := v.inner.tiles tile_index
    let tile := Tile.mk fun i => if i = pixel_index then data else tile.data i
    .ok { inner := { v.inner with
      tiles := fun i => if i = tile_index then tile else v.inner.tiles i } }
  else if vram_addr ≤ 0x1BFF then
    .ok { inner := { v.inner with
      map0 := fun i => if i = vram_addr - TILE_MAP_OFFSET then data else v.inner.map0 i } }
  else if vram_addr ≤ 0x1FFF then
    .ok { inner := { v.inner with
      map1 := fun i => if i = vram_addr - TILE_MAP_OFFSET - TILE_MAP_SIZE then data
                       else v.inner.map1 i } }
  else
    .error (.MemoryWriteFault address data)

/-! ## Object attribute memory (ppu/oam.rs).  The sprite flag byte is kept in
namespace `Oam` because the CPU register file also has a `Flags` type. -/

inductive PaletteSelection where
  | Pallete0
  | Pallete1
deriving DecidableEq

namespace Oam

structure Flags where
  priority : Bool
  y_flip : Bool
  x_flip : Bool
  palette : PaletteSelection
deriving DecidableEq

def Flags.zeroed : Flags :=
  { priority := false, y_flip := false, x_flip := false, palette := .Pallete0 }

/-- impl From<u8> for Flags: only bits 7..4 are decoded; bits 3..0 are
discarded. -/
def Flags.fromU8 (value : Nat) : Flags :=
  { priority := (value / 128) % 2 ≠ 0  -- (value >> 7) & 1
    y_flip := (value / 64) % 2 ≠ 0
    x_flip := (value / 32) % 2 ≠ 0
    palette := if (value / 16) % 2 = 0 then .Pallete0 else .Pallete1 }

/-- impl From<&Flags> for u8. -/
def Flags.toU8 (value : Flags) : Nat :=
  let v := 0
  let v := v ||| (if value.priority then 1 <<< 7 else 0)
  let v := v ||| (if value.y_flip then 1 <<< 6 else 0)
  let v := v ||| (if value.x_flip then 1 <<< 5 else 0)
  v ||| (if value.palette = .Pallete0 then 0 else 1 <<< 4)

end Oam

structure ObjectAttributes where
  y_position : Nat
  x_position : Nat
  tile_index : Nat  -- TileId newtype over u8
  attributes : Oam.Flags
deriving DecidableEq

def ObjectAttributes.zeroed : ObjectAttributes :=
  { y_position := 0, x_position := 0, tile_index := 0, attributes := Oam.Flags.zeroed }

structure ObjectAttributeMemory where
  objects : Nat → ObjectAttributes  -- [ObjectAttributes; 40]

def ObjectAttributeMemory.zeroed : ObjectAttributeMemory :=
  { objects := fun _ => ObjectAttributes.zeroed }

/-- ObjectAttributeMemory::read_u8.  `attribute_index` is `oam_addr % 4`,
so the default match arm (a panic in the source) is unreachable. -/
def ObjectAttributeMemory.read_u8 (m : ObjectAttributeMemory) (address : Nat) : Nat :=
  let oam_addr := address - 0xFE00
  let object_index := oam_addr / 4
  let attribute_index := oam_addr % 4
  let object := m.objects object_index
  match attribute_index with
  | 0 => object.y_position
  | 1 => object.x_position
  | 2 => object.tile_index
  | 3 => object.attributes.toU8
  | _ => 0  -- unreachable: oam_addr % 4 < 4

def ObjectAttributeMemory.write_u8 (m : ObjectAttributeMemory) (address data : Nat) :
    ObjectAttributeMemory :=
  let oam_addr := address - 0xFE00
  let object_index := oam_addr / 4
  let attribute_index := oam_addr % 4
  let object := m.objects object_index
  let object := match attribute_index with
    | 0 => { object with y_position := data }
    | 1 => { object with x_position := data }
    | 2 => { object with tile_index := data }  -- TileId::new(data)
    | 3 => { object with attributes := Oam.Flags.fromU8 data }
    | _ => object  -- unreachable: oam_addr % 4 < 4
  { objects := fun i => if i = object_index then object else m.objects i }

/-- PPU (ppu/mod.rs).  Only the parts the bus and the CPU `step` touch are
carried: the VRAM store and the OAM.  The rendering fields of the source
struct (pixel buffers, `bg_priority`, cycle/scanline accumulators) are not
used by any embedded operation and are omitted. -/
structure Ppu where
  vram : Vram
  oam : ObjectAttributeMemory

def Ppu.new : Ppu := { vram := Vram.new, oam := ObjectAttributeMemory.zeroed }

/-! ## Memory bus (bus/mod.rs) -/

structure Bus where
  ppu : Ppu
  boot_rom : BootRom
  cartridge : Cartridge
  work_ram : WorkRam
  io_regs : IORegs  -- field `io` in the source
  high_ram : HighRam

def Bus.new (boot_rom : BootRom) (cartridge : Cartridge) : Bus :=
  { ppu := Ppu.new, boot_rom := boot_rom, cartridge := cartridge,
    work_ram := WorkRam.new, io_regs := IORegs.new, high_ram := HighRam.new }

def Bus.boot_rom_enabled (b : Bus) : Bool :=
  b.io_regs.boot_rom_enable = 0

/-- Bus::read_u8: the address decoder.  Note that `0xA000..=0xBFFF`,
`0xE000..=0xFDFF`, `0xFEA0..=0xFEFF` and `0xFFFF` have no arm and fall
through to `MemoryReadFault`. -/
def Bus.read_u8 (b : Bus) (address : Nat) : Except Error Nat :=
  if address ≤ 0x00FF then
    if b.boot_rom_enabled then .ok (b.boot_rom.contents address)
    else .ok (b.cartridge.bank0 address)
  else if address ≤ 0x3FFF then .ok (b.cartridge.bank0 address)
  else if address ≤ 0x7FFF then .ok (b.cartridge.bank1 (address - 0x4000))
  else if address ≤ 0x9FFF then b.ppu.vram.read_u8 address
  else if 0xC000 ≤ address ∧ address ≤ 0xDFFF then .ok (b.work_ram.read_u8 address)
  else if 0xFE00 ≤ address ∧ address ≤ 0xFE9F then .ok (b.ppu.oam.read_u8 address)
  else if 0xFF00 ≤ address ∧ address ≤ 0xFF7F then b.io_regs.read_u8 address
  else if 0xFF80 ≤ address ∧ address ≤ 0xFFFE then .ok (b.high_ram.read_u8 address)
  else .error (.MemoryReadFault address)

/-- Bus::read_u16: two byte reads, low byte first.  The source computes the
second address with an unchecked `address + 1` (u16 wrap-around in release
builds), embedded as `% 2^16`. -/
def Bus.read_u16 (b : Bus) (address : Nat) : Except Error Nat := do
  let lower ← b.read_u8 address
  let higher ← b.read_u8 ((address + 1) % 65536)
  pure ((higher <<< 8) ||| lower)

/-- Bus::write_u8.  Writes to `0x0000..=0x7FFF` are silently ignored;
`0xFFFF` is routed to the I/O block (interrupt enable). -/
def Bus.write_u8 (b : Bus) (address data : Nat) : Except Error Bus :=
  if address ≤ 0x7FFF then .ok b
  else if address ≤ 0x9FFF then
    (b.ppu.vram.write_u8 address data).map fun v => { b with ppu := { b.ppu with vram := v } }
  else if 0xC000 ≤ address ∧ address ≤ 0xDFFF then
    .ok { b with work_ram := b.work_ram.write_u8 address data }
  else if 0xFE00 ≤ address ∧ address ≤ 0xFE9F then
    .ok { b with ppu := { b.ppu with oam := b.ppu.oam.write_u8 address data } }
  else if 0xFF00 ≤ address ∧ address ≤ 0xFF7F then
    (b.io_regs.write_u8 address data).map fun io => { b with io_regs := io }
  else if 0xFF80 ≤ address ∧ address ≤ 0xFFFE then
    .ok { b with high_ram := b.high_ram.write_u8 address data }
  else if address = 0xFFFF then
    (b.io_regs.write_u8 address data).map fun io => { b with io_regs := io }
  else .error (.MemoryWriteFault address data)

/-- Bus::write_u16: high byte to `address + 1` (unchecked u16 add, embedded
as wrap), then low byte to `address`. -/
def Bus.write_u16 (b : Bus) (address data : Nat) : Except Error Bus := do
  let b ← b.write_u8 ((address + 1) % 65536) ((data / 256) % 256)  -- (data >> 8) as u8
  b.write_u8 address (data % 256)  -- (data & 0xFF) as u8

/-! ## Instruction descriptors (cpu/instruction.rs).  The `Imm8`, `Imm16`,
`BitIndex` and `Target` newtypes over u8/u16 are inlined as `Nat`. -/

inductive Register16 where
  | Bc
  | De
  | Hl
  | Sp
deriving DecidableEq

inductive Register16Stack where
  | Bc
  | De
  | Hl
  | Af
deriving DecidableEq

inductive Register16Memory where
  | Bc
  | De
  | Hli
  | Hld
deriving DecidableEq

inductive Register8 where
  | A
  | B
  | C
  | D
  | E
  | H
  | L
  | HlIndirect
deriving DecidableEq

inductive Condition where
  | Nz
  | Z
  | Nc
  | C
deriving DecidableEq

inductive Instruction where
  | Nop
  | LdReg16 (r16 : Register16) (imm16 : Nat)
  | LdMemA (r16mem : Register16Memory)
  | LdAMem (r16mem : Register16Memory)
  | LdImm16Sp (imm16 : Nat)
  | Inc16 (r16 : Register16)
  | Dec16 (r16 : Register16)
  | AddHl (r16 : Register16)
  | Inc8 (r8 : Register8)
  | Dec8 (r8 : Register8)
  | LdReg8Imm (r8 : Register8) (imm8 : Nat)
  | Rlca
  | Rrca
  | Rla
  | Rra
  | Daa
  | Cpl
  | Scf
  | Ccf
  | JrImm (imm8 : Nat)
  | JrCond (cond : Condition) (imm8 : Nat)
  | Stop
  | LdReg8Reg8 (dest src : Register8)
  | Halt
  | AddReg8 (r8 : Register8)
  | AdcReg8 (r8 : Register8)
  | SubReg8 (r8 : Register8)
  | SbcReg8 (r8 : Register8)
  | AndReg8 (r8 : Register8)
  | XorReg8 (r8 : Register8)
  | OrReg8 (r8 : Register8)
  | CpReg8 (r8 : Register8)
  | AddImm8 (imm8 : Nat)
  | AdcImm8 (imm8 : Nat)
  | SubImm8 (imm8 : Nat)
  | SbcImm8 (imm8 : Nat)
  | AndImm8 (imm8 : Nat)
  | XorImm8 (imm8 : Nat)
  | OrImm8 (imm8 : Nat)
  | CpImm8 (imm8 : Nat)
  | RetCond (cond : Condition)
  | Ret
  | Reti
  | JpCond (cond : Condition) (imm16 : Nat)
  | JpImm (imm16 : Nat)
  | JpHl
  | CallCond (cond : Condition) (imm16 : Nat)
  | CallImm (imm16 : Nat)
  | Rst (tgt : Nat)
  | Pop (r16stk : Register16Stack)
  | Push (r16stk : Register16Stack)
  | LdhMemA
  | LdhImmA (imm8 : Nat)
  | LdImmA (imm16 : Nat)
  | LdhAMem
  | LdhAImm (imm8 : Nat)
  | LdAImm (imm16 : Nat)
  | AddSp (imm8 : Nat)
  | LdHlSpImm8 (imm8 : Nat)
  | LdSpHl
  | Di
  | Ei
  | Rlc (r8 : Register8)
  | Rrc (r8 : Register8)
  | Rl (r8 : Register8)
  | Rr (r8 : Register8)
  | Sla (r8 : Register8)
  | Sra (r8 : Register8)
  | Swap (r8 : Register8)
  | Srl (r8 : Register8)
  | Bit (idx : Nat) (r8 : Register8)
  | Res (idx : Nat) (r8 : Register8)
  | Set (idx : Nat) (r8 : Register8)

/-- Instruction::length (byte length, cpu/instruction.rs). -/
def Instruction.length : Instruction → Nat
  | .Nop => 1
  | .LdReg16 _ _ => 3
  | .LdMemA _ => 1
  | .LdAMem _ => 1
  | .LdImm16Sp _ => 3
  | .Inc16 _ => 1
  | .Dec16 _ => 1
  | .AddHl _ => 1
  | .Inc8 _ => 1
  | .Dec8 _ => 1
  | .LdReg8Imm _ _ => 2
  | .Rlca => 1
  | .Rrca => 1
  | .Rla => 1
  | .Rra => 1
  | .Daa => 1
  | .Cpl => 1
  | .Scf => 1
  | .Ccf => 1
  | .JrImm _ => 2
  | .JrCond _ _ => 2
  | .Stop => 1
  | .LdReg8Reg8 _ _ => 1
  | .Halt => 1
  | .AddReg8 _ => 1
  | .AdcReg8 _ => 1
  | .SubReg8 _ => 1
  | .SbcReg8 _ => 1
  | .AndReg8 _ => 1
  | .XorReg8 _ => 1
  | .OrReg8 _ => 1
  | .CpReg8 _ => 1
  | .AddImm8 _ => 2
  | .AdcImm8 _ => 2
  | .SubImm8 _ => 2
  | .SbcImm8 _ => 2
  | .AndImm8 _ => 2
  | .XorImm8 _ => 2
  | .OrImm8 _ => 2
  | .CpImm8 _ => 2
  | .RetCond _ => 1
  | .Ret => 1
  | .Reti => 1
  | .JpCond _ _ => 3
  | .JpImm _ => 3
  | .JpHl => 1
  | .CallCond _ _ => 3
  | .CallImm _ => 3
  | .Rst _ => 1
  | .Pop _ => 1
  | .Push _ => 1
  | .LdhMemA => 1
  | .LdhImmA _ => 2
  | .LdImmA _ => 3
  | .LdhAMem => 1
  | .LdhAImm _ => 2
  | .LdAImm _ => 3
  | .AddSp _ => 2
  | .LdHlSpImm8 _ => 2
  | .LdSpHl => 1
  | .Di => 1
  | .Ei => 1
  | .Rlc _ => 2
  | .Rrc _ => 2
  | .Rl _ => 2
  | .Rr _ => 2
  | .Sla _ => 2
  | .Sra _ => 2
  | .Swap _ => 2
  | .Srl _ => 2
  | .Bit _ _ => 2
  | .Res _ _ => 2
  | .Set _ _ => 2

/-- Modelled from the spec: `Cpu::step` in cpu/mod.rs charges
`current_instruction.base_num_cycles()`, but no `base_num_cycles` method
exists anywhere under src/ (the repository is mid-refactor).  The spec says
"Each decoded instruction carries a fixed 'base cycles' cost; conditional
branches add extra cycles when taken (JR: +4, JP: +4, CALL: +12, RET: +12
in T-states)" and that a HALTed step returns 4 T-cycles where the code
returns 1, so the unit here is M-cycles and the extras match the `+1`/`+3`
the executor adds.  This is the canonical SM83 base M-cycle table. -/
def Instruction.base_num_cycles : Instruction → Nat
  | .Nop => 1
  | .LdReg16 _ _ => 3
  | .LdMemA _ => 2
  | .LdAMem _ => 2
  | .LdImm16Sp _ => 5
  | .Inc16 _ => 2
  | .Dec16 _ => 2
  | .AddHl _ => 2
  | .Inc8 r8 => if r8 = .HlIndirect then 3 else 1
  | .Dec8 r8 => if r8 = .HlIndirect then 3 else 1
  | .LdReg8Imm r8 _ => if r8 = .HlIndirect then 3 else 2
  | .Rlca => 1
  | .Rrca => 1
  | .Rla => 1
  | .Rra => 1
  | .Daa => 1
  | .Cpl => 1
  | .Scf => 1
  | .Ccf => 1
  | .JrImm _ => 3
  | .JrCond _ _ => 2
  | .Stop => 1
  | .LdReg8Reg8 dest src => if dest = .HlIndirect || src = .HlIndirect then 2 else 1
  | .Halt => 1
  | .AddReg8 r8 => if r8 = .HlIndirect then 2 else 1
  | .AdcReg8 r8 => if r8 = .HlIndirect then 2 else 1
  | .SubReg8 r8 => if r8 = .HlIndirect then 2 else 1
  | .SbcReg8 r8 => if r8 = .HlIndirect then 2 else 1
  | .AndReg8 r8 => if r8 = .HlIndirect then 2 else 1
  | .XorReg8 r8 => if r8 = .HlIndirect then 2 else 1
  | .OrReg8 r8 => if r8 = .HlIndirect then 2 else 1
  | .CpReg8 r8 => if r8 = .HlIndirect then 2 else 1
  | .AddImm8 _ => 2
  | .AdcImm8 _ => 2
  | .SubImm8 _ => 2
  | .SbcImm8 _ => 2
  | .AndImm8 _ => 2
  | .XorImm8 _ => 2
  | .OrImm8 _ => 2
  | .CpImm8 _ => 2
  | .RetCond _ => 2
  | .Ret => 4
  | .Reti => 4
  | .JpCond _ _ => 3
  | .JpImm _ => 4
  | .JpHl => 1
  | .CallCond _ _ => 3
  | .CallImm _ => 6
  | .Rst _ => 4
  | .Pop _ => 3
  | .Push _ => 4
  | .LdhMemA => 2
  | .LdhImmA _ => 3
  | .LdImmA _ => 4
  | .LdhAMem => 2
  | .LdhAImm _ => 3
  | .LdAImm _ => 4
  | .AddSp _ => 4
  | .LdHlSpImm8 _ => 3
  | .LdSpHl => 2
  | .Di => 1
  | .Ei => 1
  | .Rlc r8 => if r8 = .HlIndirect then 4 else 2
  | .Rrc r8 => if r8 = .HlIndirect then 4 else 2
  | .Rl r8 => if r8 = .HlIndirect then 4 else 2
  | .Rr r8 => if r8 = .HlIndirect then 4 else 2
  | .Sla r8 => if r8 = .HlIndirect then 4 else 2
  | .Sra r8 => if r8 = .HlIndirect then 4 else 2
  | .Swap r8 => if r8 = .HlIndirect then 4 else 2
  | .Srl r8 => if r8 = .HlIndirect then 4 else 2
  | .Bit _ r8 => if r8 = .HlIndirect then 3 else 2
  | .Res _ r8 => if r8 = .HlIndirect then 4 else 2
  | .Set _ r8 => if r8 = .HlIndirect then 4 else 2

/-! ## Instruction decoder (cpu/decoder.rs).  The opcode class the source
names `Opcode::Prefix` (the 0xCB escape) is embedded as `PrefixCB`. -/

inductive Opcode where
  | Nop
  | LdReg16
  | LdMemA
  | LdAMem
  | LdImm16Sp
  | Inc16
  | Dec16
  | AddHl
  | Inc8
  | Dec8
  | LdReg8Imm
  | Rlca
  | Rrca
  | Rla
  | Rra
  | Daa
  | Cpl
  | Scf
  | Ccf
  | JrImm
  | JrCond
  | Stop
  | LdReg8Reg8
  | Halt
  | AddReg8
  | AdcReg8
  | SubReg8
  | SbcReg8
  | AndReg8
  | XorReg8
  | OrReg8
  | CpReg8
  | AddImm8
  | AdcImm8
  | SubImm8
  | SbcImm8
  | AndImm8
  | XorImm8
  | OrImm8
  | CpImm8
  | RetCond
  | Ret
  | Reti
  | JpCond
  | JpImm
  | JpHl
  | CallCond
  | CallImm
  | Rst
  | Pop
  | Push
  | LdhMemA
  | LdhImmA
  | LdImmA
  | LdhAMem
  | LdhAImm
  | LdAImm
  | AddSp
  | LdHlSpImm8
  | LdSpHl
  | Di
  | Ei
  | PrefixCB

inductive Prefixed where
  | Rlc
  | Rrc
  | Rl
  | Rr
  | Sla
  | Sra
  | Swap
  | Srl
  | Bit
  | Res
  | Set

/-- impl TryFrom<u8> for Opcode: the bit-pattern classifier chain. -/
def Opcode.tryFromU8 (value : Nat) : Except Unit Opcode :=
  if value = 0 then .ok .Nop
  else if value &&& 0xCF = 0x01 then .ok .LdReg16
  else if value &&& 0xCF = 0x02 then .ok .LdMemA
  else if value &&& 0xCF = 0x0A then .ok .LdAMem
  else if value &&& 0xFF = 0x08 then .ok .LdImm16Sp
  else if value &&& 0xCF = 0x03 then .ok .Inc16
  else if value &&& 0xCF = 0x0B then .ok .Dec16
  else if value &&& 0xC7 = 0x04 then .ok .Inc8
  else if value &&& 0xC7 = 0x05 then .ok .Dec8
  else if value &&& 0xC7 = 0x06 then .ok .LdReg8Imm
  else if value = 0x07 then .ok .Rlca
  else if value = 0x0F then .ok .Rrca
  else if value = 0x17 then .ok .Rla
  else if value = 0x1F then .ok .Rra
  else if value = 0x27 then .ok .Daa
  else if value = 0x2F then .ok .Cpl
  else if value = 0x37 then .ok .Scf
  else if value = 0x3F then .ok .Ccf
  else if value = 0x18 then .ok .JrImm
  else if value &&& 0xE7 = 0x20 then .ok .JrCond
  else if value = 0x10 then .ok .Stop
  else if value &&& 0xC0 = 0x40 then .ok .LdReg8Reg8
  else if value = 0x76 then .ok .Halt
  else if value &&& 0xF8 = 0x80 then .ok .AddReg8
  else if value &&& 0xF8 = 0x88 then .ok .AdcReg8
  else if value &&& 0xF8 = 0x90 then .ok .SubReg8
  else if value &&& 0xF8 = 0x98 then .ok .SbcReg8
  else if value &&& 0xF8 = 0xA0 then .ok .AndReg8
  else if value &&& 0xF8 = 0xA8 then .ok .XorReg8
  else if value &&& 0xF8 = 0xB0 then .ok .OrReg8
  else if value &&& 0xF8 = 0xB8 then .ok .CpReg8
  else if value = 0xC6 then .ok .AddImm8
  else if value = 0xCE then .ok .AdcImm8
  else if value = 0xD6 then .ok .SubImm8
  else if value = 0xDE then .ok .SbcImm8
  else if value = 0xE6 then .ok .AndImm8
  else if value = 0xEE then .ok .XorImm8
  else if value = 0xF6 then .ok .OrImm8
  else if value = 0xFE then .ok .CpImm8
  else if value &&& 0xE7 = 0xC0 then .ok .RetCond
  else if value = 0xC9 then .ok .Ret
  else if value = 0xD9 then .ok .Reti
  else if value &&& 0xE7 = 0xC2 then .ok .JpCond
  else if value = 0xC3 then .ok .JpImm
  else if value = 0xE9 then .ok .JpHl
  else if value &&& 0xE7 = 0xC4 then .ok .CallCond
  else if value = 0xCD then .ok .CallImm
  else if value &&& 0xC7 = 0xC7 then .ok .Rst
  else if value &&& 0xCF = 0xC1 then .ok .Pop
  else if value &&& 0xCF = 0xC5 then .ok .Push
  else if value = 0xCB then .ok .PrefixCB
  else if value = 0xE2 then .ok .LdhMemA
  else if value = 0xE0 then .ok .LdhImmA
  else if value = 0xEA then .ok .LdImmA
  else if value = 0xF2 then .ok .LdhAMem
  else if value = 0xF0 then .ok .LdhAImm
  else if value = 0xFA then .ok .LdAImm
  else if value = 0xE8 then .ok .AddSp
  else if value = 0xF8 then .ok .LdHlSpImm8
  else if value = 0xF9 then .ok .LdSpHl
  else if value = 0xF3 then .ok .Di
  else if value = 0xFB then .ok .Ei
  else .error ()

/-- impl TryFrom<u8> for Prefixed. -/
def Prefixed.tryFromU8 (value : Nat) : Except Unit Prefixed :=
  if value &&& 0xF8 = 0x00 then .ok .Rlc
  else if value &&& 0xF8 = 0x08 then .ok .Rrc
  else if value &&& 0xF8 = 0x10 then .ok .Rl
  else if value &&& 0xF8 = 0x18 then .ok .Rr
  else if value &&& 0xF8 = 0x20 then .ok .Sla
  else if value &&& 0xF8 = 0x28 then .ok .Sra
  else if value &&& 0xF8 = 0x30 then .ok .Swap
  else if value &&& 0xF8 = 0x38 then .ok .Srl
  else if value &&& 0xC0 = 0x40 then .ok .Bit
  else if value &&& 0xC0 = 0x80 then .ok .Res
  else if value &&& 0xC0 = 0xC0 then .ok .Set
  else .error ()

/-- Decoder::read_r16: `(opcode_byte >> bit_offset) & 0b11`. -/
def Decoder.read_r16 (opcode_byte bit_offset : Nat) : Register16 :=
  match (opcode_byte / 2 ^ bit_offset) % 4 with
  | 0 => .Bc
  | 1 => .De
  | 2 => .Hl
  | _ => .Sp

def Decoder.read_r16_stack (opcode_byte : Nat) : Register16Stack :=
  match (opcode_byte / 16) % 4 with
  | 0 => .Bc
  | 1 => .De
  | 2 => .Hl
  | _ => .Af

def Decoder.read_r16_mem (opcode_byte bit_offset : Nat) : Register16Memory :=
  match (opcode_byte / 2 ^ bit_offset) % 4 with
  | 0 => .Bc
  | 1 => .De
  | 2 => .Hli
  | _ => .Hld

def Decoder.read_r8 (opcode_byte bit_offset : Nat) : Register8 :=
  match (opcode_byte / 2 ^ bit_offset) % 8 with
  | 0 => .B
  | 1 => .C
  | 2 => .D
  | 3 => .E
  | 4 => .H
  | 5 => .L
  | 6 => .HlIndirect
  | _ => .A

/-- Decoder::read_bit_index: `(prefixed >> 3) & 0b111`. -/
def Decoder.read_bit_index (prefixed : Nat) : Nat :=
  (prefixed / 8) % 8

/-- Decoder::read_tgt: `(opcode_byte >> 3) & 0b111`. -/
def Decoder.read_tgt (opcode_byte : Nat) : Nat :=
  (opcode_byte / 8) % 8

def Decoder.read_cond (opcode_byte : Nat) : Condition :=
  match (opcode_byte / 8) % 4 with
  | 0 => .Nz
  | 1 => .Z
  | 2 => .Nc
  | _ => .C

/-- Decoder::read_imm8: byte at `ip + 1` (unchecked u16 add, wraps). -/
def Decoder.read_imm8 (bus : Bus) (ip : Nat) : Except Error Nat :=
  bus.read_u8 ((ip + 1) % 65536)

def Decoder.read_imm16 (bus : Bus) (ip : Nat) : Except Error Nat :=
  bus.read_u16 ((ip + 1) % 65536)

/-- Decoder::decode_one.  The source maps a failed opcode classification to
`Error::InvalidInstruction(ip)`; the byte payload declared in error.rs is
additionally carried here. -/
def Decoder.decode_one (state : ExecutionState) (bus : Bus) : Except Error Instruction := do
  let ip := state.instruction_pointer
  let opcode_byte ← bus.read_u8 ip
  let opcode ← match Opcode.tryFromU8 opcode_byte with
    | .error _ => Except.error (Error.InvalidInstruction ip opcode_byte)
    | .ok o => pure o
  match opcode with
  | .Nop => pure .Nop
  | .LdReg16 => do
    let r16 := Decoder.read_r16 opcode_byte 4
    let imm16 ← Decoder.read_imm16 bus ip
    pure (.LdReg16 r16 imm16)
  | .LdMemA => pure (.LdMemA (Decoder.read_r16_mem opcode_byte 4))
  | .LdAMem => pure (.LdAMem (Decoder.read_r16_mem opcode_byte 4))
  | .LdImm16Sp => do
    let imm16 ← Decoder.read_imm16 bus ip
    pure (.LdImm16Sp imm16)
  | .Inc16 => pure (.Inc16 (Decoder.read_r16 opcode_byte 4))
  | .Dec16 => pure (.Dec16 (Decoder.read_r16 opcode_byte 4))
  | .AddHl => pure (.AddHl (Decoder.read_r16 opcode_byte 4))
  | .Inc8 => pure (.Inc8 (Decoder.read_r8 opcode_byte 3))
  | .Dec8 => pure (.Dec8 (Decoder.read_r8 opcode_byte 3))
  | .LdReg8Imm => do
    let r8 := Decoder.read_r8 opcode_byte 3
    let imm8 ← Decoder.read_imm8 bus ip
    pure (.LdReg8Imm r8 imm8)
  | .Rlca => pure .Rlca
  | .Rrca => pure .Rrca
  | .Rla => pure .Rla
  | .Rra => pure .Rra
  | .Daa => pure .Daa
  | .Cpl => pure .Cpl
  | .Scf => pure .Scf
  | .Ccf => pure .Ccf
  | .JrImm => do
    let imm8 ← Decoder.read_imm8 bus ip
    pure (.JrImm imm8)
  | .JrCond => do
    let cond := Decoder.read_cond opcode_byte
    let imm8 ← Decoder.read_imm8 bus ip
    pure (.JrCond cond imm8)
  | .Stop => pure .Stop
  | .LdReg8Reg8 => do
    let src := Decoder.read_r8 opcode_byte 0
    let dest := Decoder.read_r8 opcode_byte 3
    pure (.LdReg8Reg8 dest src)
  | .Halt => pure .Halt
  | .AddReg8 => pure (.AddReg8 (Decoder.read_r8 opcode_byte 0))
  | .AdcReg8 => pure (.AdcReg8 (Decoder.read_r8 opcode_byte 0))
  | .SubReg8 => pure (.SubReg8 (Decoder.read_r8 opcode_byte 0))
  | .SbcReg8 => pure (.SbcReg8 (Decoder.read_r8 opcode_byte 0))
  | .AndReg8 => pure (.AndReg8 (Decoder.read_r8 opcode_byte 0))
  | .XorReg8 => pure (.XorReg8 (Decoder.read_r8 opcode_byte 0))
  | .OrReg8 => pure (.OrReg8 (Decoder.read_r8 opcode_byte 0))
  | .CpReg8 => pure (.CpReg8 (Decoder.read_r8 opcode_byte 0))
  | .AddImm8 => do
    let imm8 ← Decoder.read_imm8 bus ip
    pure (.AddImm8 imm8)
  | .AdcImm8 => do
    let imm8 ← Decoder.read_imm8 bus ip
    pure (.AdcImm8 imm8)
  | .SubImm8 => do
    let imm8 ← Decoder.read_imm8 bus ip
    pure (.SubImm8 imm8)
  | .SbcImm8 => do
    let imm8 ← Decoder.read_imm8 bus ip
    pure (.SbcImm8 imm8)
  | .AndImm8 => do
    let imm8 ← Decoder.read_imm8 bus ip
    pure (.AndImm8 imm8)
  | .XorImm8 => do
    let imm8 ← Decoder.read_imm8 bus ip
    pure (.XorImm8 imm8)
  | .OrImm8 => do
    let imm8 ← Decoder.read_imm8 bus ip
    pure (.OrImm8 imm8)
  | .CpImm8 => do
    let imm8 ← Decoder.read_imm8 bus ip
    pure (.CpImm8 imm8)
  | .RetCond => pure (.RetCond (Decoder.read_cond opcode_byte))
  | .Ret => pure .Ret
  | .Reti => pure .Reti
  | .JpCond => do
    let cond := Decoder.read_cond opcode_byte
    let imm16 ← Decoder.read_imm16 bus ip
    pure (.JpCond cond imm16)
  | .JpImm => do
    let imm16 ← Decoder.read_imm16 bus ip
    pure (.JpImm imm16)
  | .JpHl => pure .JpHl
  | .CallCond => do
    let cond := Decoder.read_cond opcode_byte
    let imm16 ← Decoder.read_imm16 bus ip
    pure (.CallCond cond imm16)
  | .CallImm => do
    let imm16 ← Decoder.read_imm16 bus ip
    pure (.CallImm imm16)
  | .Rst => pure (.Rst (Decoder.read_tgt opcode_byte))
  | .Pop => pure (.Pop (Decoder.read_r16_stack opcode_byte))
  | .Push => pure (.Push (Decoder.read_r16_stack opcode_byte))
  | .PrefixCB => do
    let prefixed_byte ← bus.read_u8 ((ip + 1) % 65536)
    let prefixed ← match Prefixed.tryFromU8 prefixed_byte with
      | .error _ => Except.error (Error.InvalidInstruction ip prefixed_byte)
      | .ok p => pure p
    let r8 := Decoder.read_r8 prefixed_byte 0
    match prefixed with
    | .Rlc => pure (.Rlc r8)
    | .Rrc => pure (.Rrc r8)
    | .Rl => pure (.Rl r8)
    | .Rr => pure (.Rr r8)
    | .Sla => pure (.Sla r8)
    | .Sra => pure (.Sra r8)
    | .Swap => pure (.Swap r8)
    | .Srl => pure (.Srl r8)
    | .Bit => pure (.Bit (Decoder.read_bit_index prefixed_byte) r8)
    | .Res => pure (.Res (Decoder.read_bit_index prefixed_byte) r8)
    | .Set => pure (.Set (Decoder.read_bit_index prefixed_byte) r8)
  | .LdhMemA => pure .LdhMemA
  | .LdhImmA => do
    let imm8 ← Decoder.read_imm8 bus ip
    pure (.LdhImmA imm8)
  | .LdImmA => do
    let imm16 ← Decoder.read_imm16 bus ip
    pure (.LdImmA imm16)
  | .LdhAMem => pure .LdhAMem
  | .LdhAImm => do
    let imm8 ← Decoder.read_imm8 bus ip
    pure (.LdhAImm imm8)
  | .LdAImm => do
    let imm16 ← Decoder.read_imm16 bus ip
    pure (.LdAImm imm16)
  | .AddSp => do
    let imm8 ← Decoder.read_imm8 bus ip
    pure (.AddSp imm8)
  | .LdHlSpImm8 => do
    let imm8 ← Decoder.read_imm8 bus ip
    pure (.LdHlSpImm8 imm8)
  | .LdSpHl => pure .LdSpHl
  | .Di => pure .Di
  | .Ei => pure .Ei

/-! ## CPU (cpu/mod.rs) and its ALU (cpu/alu.rs).  The `decoder` field of
the Rust struct is stateless and is not carried. -/

structure Cpu where
  state : ExecutionState
  bus : Bus
  interrupt_enable_next : Bool
  halted : Bool

def Cpu.new (bus : Bus) : Cpu :=
  { state := ExecutionState.new, bus := bus, interrupt_enable_next := false, halted := false }

def Cpu.setFlags (c : Cpu) (f : Flags) : Cpu :=
  { c with state := c.state.set_flags f }

/-- Signed interpretation of an `Imm8` payload (`impl From<Imm8> for i8`). -/
def imm8ToI8 (v : Nat) : Int :=
  if v < 128 then (v : Int) else (v : Int) - 256

def Cpu.inc_u16 (_c : Cpu) (val : Nat) : Nat :=
  (val + 1) % 65536  -- wrapping_add(1)

def Cpu.dec_u16 (_c : Cpu) (val : Nat) : Nat :=
  (val + 65536 - 1) % 65536  -- wrapping_sub(1)

/-- Cpu::generic_add_u8. -/
def Cpu.generic_add_u8 (c : Cpu) (v1 v2 : Nat) (with_carry : Bool) : Cpu × Nat :=
  let carry := if with_carry && c.state.flags.carry then 1 else 0
  let first_carry := v1 + v2 ≥ 256           -- overflowing_add
  let temp := (v1 + v2) % 256
  let second_carry := temp + carry ≥ 256
  let result := (temp + carry) % 256
  let half_result := v1 % 16 + v2 % 16 + carry
  let half_carry := half_result > 0x0F
  let flags := Flags.new (first_carry || second_carry) half_carry false (result = 0)
  (c.setFlags flags, result)

def Cpu.add_u8 (c : Cpu) (v1 v2 : Nat) : Cpu × Nat :=
  c.generic_add_u8 v1 v2 false

def Cpu.adc_u8 (c : Cpu) (v1 v2 : Nat) : Cpu × Nat :=
  c.generic_add_u8 v1 v2 true

/-- Cpu::inc_u8: an 8-bit add of 1 that restores the pre-existing carry. -/
def Cpu.inc_u8 (c : Cpu) (val : Nat) : Cpu × Nat :=
  let flags_before := c.state.flags
  let (c, result) := c.add_u8 val 1
  (c.setFlags { c.state.flags with carry := flags_before.carry }, result)

/-- Cpu::generic_sub_u8: computes `v2 - v1` (note operand order). -/
def Cpu.generic_sub_u8 (c : Cpu) (v1 v2 : Nat) (with_carry : Bool) : Cpu × Nat :=
  let carry := if with_carry && c.state.flags.carry then 1 else 0
  let first_borrow := v2 < v1                      -- overflowing_sub
  let temp := (v2 + 256 - v1 % 256) % 256
  let second_borrow := temp < carry
  let result := (temp + 256 - carry) % 256
  let half_borrow := v2 % 16 < v1 % 16 + carry
  let flags := Flags.new (first_borrow || second_borrow) half_borrow true (result = 0)
  (c.setFlags flags, result)

def Cpu.sub_u8 (c : Cpu) (v1 v2 : Nat) : Cpu × Nat :=
  c.generic_sub_u8 v1 v2 false

def Cpu.sbc_u8 (c : Cpu) (v1 v2 : Nat) : Cpu × Nat :=
  c.generic_sub_u8 v1 v2 true

/-- Cpu::dec_u8: `sub_u8(1, val)` restoring the pre-existing carry. -/
def Cpu.dec_u8 (c : Cpu) (val : Nat) : Cpu × Nat :=
  let flags_before := c.state.flags
  let (c, result) := c.sub_u8 1 val
  (c.setFlags { c.state.flags with carry := flags_before.carry }, result)

/-- Cpu::generic_add_u16. -/
def Cpu.generic_add_u16 (c : Cpu) (v1 v2 : Nat) (with_carry update_zero_flag : Bool) :
    Cpu × Nat :=
  let carry := if with_carry && c.state.flags.carry then 1 else 0
  let first_carry := v1 + v2 ≥ 65536
  let temp := (v1 + v2) % 65536
  let second_carry := temp + carry ≥ 65536
  let result := (temp + carry) % 65536
  let half_result := v1 % 4096 + v2 % 4096 + carry
  let half_carry := half_result > 0x0FFF
  let zero_before := c.state.flags.zero
  let flags := Flags.new (first_carry || second_carry) half_carry false
    (if update_zero_flag then result = 0 else zero_before)
  (c.setFlags flags, result)

/-- Cpu::add_hl: the Z-preserving 16-bit add.  (Defined in alu.rs but never
called by the executor.) -/
def Cpu.add_hl (c : Cpu) (v1 v2 : Nat) : Cpu × Nat :=
  c.generic_add_u16 v1 v2 false false

def Cpu.add_u16 (c : Cpu) (v1 v2 : Nat) : Cpu × Nat :=
  c.generic_add_u16 v1 v2 false true

def Cpu.adc_u16 (c : Cpu) (v1 v2 : Nat) : Cpu × Nat :=
  c.generic_add_u16 v1 v2 true true

/-- Cpu::add_sp (defined in alu.rs; the executor's ADD SP arm actually calls
`add_u16`). -/
def Cpu.add_sp (c : Cpu) (sp val : Nat) : Cpu × Nat :=
  let is_negative := (val / 128) ≠ 0
  let lower_sp := sp % 256
  let upper_sp := (sp / 256) % 256
  let (c, lower_result) := c.add_u8 lower_sp val
  let c := c.setFlags { c.state.flags with zero := false }
  let upper_result :=
    if !is_negative && c.state.flags.carry then (upper_sp + 1) % 256       -- wrapping_add
    else if is_negative && !c.state.flags.carry then (upper_sp + 256 - 1) % 256
    else upper_sp
  (c, (upper_result <<< 8) ||| lower_result)

/-- Cpu::generic_sub_u16: computes `v2 - v1`. -/
def Cpu.generic_sub_u16 (c : Cpu) (v1 v2 : Nat) (with_carry : Bool) : Cpu × Nat :=
  let carry := if with_carry && c.state.flags.carry then 1 else 0
  let first_borrow := v2 < v1
  let temp := (v2 + 65536 - v1 % 65536) % 65536
  let second_borrow := temp < carry
  let result := (temp + 65536 - carry) % 65536
  let half_borrow := v2 % 4096 < v1 % 4096 + carry
  let flags := Flags.new (first_borrow || second_borrow) half_borrow true (result = 0)
  (c.setFlags flags, result)

def Cpu.sub_u16 (c : Cpu) (v1 v2 : Nat) : Cpu × Nat :=
  c.generic_sub_u16 v1 v2 false

def Cpu.sbc_u16 (c : Cpu) (v1 v2 : Nat) : Cpu × Nat :=
  c.generic_sub_u16 v1 v2 true

def Cpu.and_u8 (c : Cpu) (v1 v2 : Nat) : Cpu × Nat :=
  let result := v1 &&& v2
  (c.setFlags (Flags.new false true false (result = 0)), result)

def Cpu.xor_u8 (c : Cpu) (v1 v2 : Nat) : Cpu × Nat :=
  let result := v1 ^^^ v2
  (c.setFlags { Flags.zeros with zero := result = 0 }, result)

def Cpu.or_u8 (c : Cpu) (v1 v2 : Nat) : Cpu × Nat :=
  let result := v1 ||| v2
  (c.setFlags { Flags.zeros with zero := result = 0 }, result)

def Cpu.cp_u8 (c : Cpu) (v1 v2 : Nat) : Cpu :=
  (c.sub_u8 v1 v2).1

/-- Cpu::decimal_adjust.  The adjusted result uses wrapping u8 arithmetic. -/
def Cpu.decimal_adjust (c : Cpu) (a : Nat) : Cpu × Nat :=
  let flags := c.state.flags
  let adjustment := if flags.half_carry || (!flags.subtraction && a % 16 > 0x09)
    then 0x06 else 0
  let pair := if flags.carry || (!flags.subtraction && a > 0x99)
    then (adjustment + 0x60, true) else (adjustment, false)
  let adjustment := pair.1
  let new_carry := pair.2
  let result := if flags.subtraction
    then (a + 256 - adjustment % 256) % 256  -- wrapping_sub
    else (a + adjustment) % 256                  -- wrapping_add
  let c := c.setFlags
    { flags with subtraction := flags.subtraction, half_carry := false,
                 carry := new_carry, zero := result = 0 }
  (c, result)

def Cpu.rotate_left_u8 (c : Cpu) (v : Nat) (update_zero_flag through_carry : Bool) :
    Cpu × Nat :=
  let carry := v / 128  -- v >> 7 (bit 7 of a u8)
  let result := if through_carry
    then (v * 2) % 256 ||| (if c.state.flags.carry then 1 else 0)  -- (v << 1) | carry-in
    else (v * 2) % 256 ||| carry
  let flags := Flags.new (carry ≠ 0) false false (update_zero_flag && result = 0)
  (c.setFlags flags, result)

def Cpu.rotate_right_u8 (c : Cpu) (v : Nat) (update_zero_flag through_carry : Bool) :
    Cpu × Nat :=
  let carry := v % 2  -- v & 1
  let result := if through_carry
    then v / 2 ||| ((if c.state.flags.carry then 1 else 0) <<< 7)
    else v / 2 ||| (carry <<< 7)
  let flags := Flags.new (carry ≠ 0) false false (update_zero_flag && result = 0)
  (c.setFlags flags, result)

/-- Cpu::not_u8: bitwise complement within u8. -/
def Cpu.not_u8 (c : Cpu) (v : Nat) : Cpu × Nat :=
  let result := 255 - v % 256
  let c := c.setFlags { c.state.flags with subtraction := true, half_carry := true }
  (c, result)

def Cpu.swap_u8 (c : Cpu) (v : Nat) : Cpu × Nat :=
  let hi := (v &&& 0xF0) >>> 4
  let lo := (v &&& 0x0F) <<< 4
  let result := hi ||| lo
  (c.setFlags (Flags.new false false false (result = 0)), result)

def Cpu.shift_left_arithmetic (c : Cpu) (v : Nat) : Cpu × Nat :=
  let carry := v / 128 ≠ 0
  let result := (v * 2) % 256  -- v << 1 within u8
  (c.setFlags (Flags.new carry false false (result = 0)), result)

def Cpu.shift_right_arithmetic (c : Cpu) (v : Nat) : Cpu × Nat :=
  let carry := v % 2 ≠ 0
  let result := v / 2 ||| (v &&& 0x80)
  (c.setFlags (Flags.new carry false false (result = 0)), result)

def Cpu.shift_right_logical (c : Cpu) (v : Nat) : Cpu × Nat :=
  let carry := v % 2 ≠ 0
  let result := v / 2
  (c.setFlags (Flags.new carry false false (result = 0)), result)

def Cpu.test_bit_u8 (c : Cpu) (idx v : Nat) : Cpu :=
  let zero := (v / 2 ^ idx) % 2 = 0
  c.setFlags { c.state.flags with half_carry := true, subtraction := false, zero := zero }

def Cpu.reset_bit_u8 (_c : Cpu) (idx v : Nat) : Nat :=
  v &&& (255 - (1 <<< idx) % 256)  -- v & !(1 << idx) within u8

def Cpu.set_bit_u8 (_c : Cpu) (idx v : Nat) : Nat :=
  v ||| (1 <<< idx)

/-! ## CPU executor helpers (cpu/mod.rs) -/

def Cpu.push_u8 (c : Cpu) (value : Nat) : Except Error Cpu := do
  let new_sp := (c.state.stack_pointer + 65536 - 1) % 65536  -- wrapping_sub(1)
  let c := { c with state := c.state.set_stack_pointer new_sp }
  let b ← c.bus.write_u8 new_sp value
  pure { c with bus := b }

/-- Cpu::push_u16: high byte first, then low byte. -/
def Cpu.push_u16 (c : Cpu) (value : Nat) : Except Error Cpu := do
  let c ← c.push_u8 ((value / 256) % 256)  -- (value >> 8) as u8
  c.push_u8 (value % 256)                    -- (value & 0xFF) as u8

def Cpu.pop_u8 (c : Cpu) : Except Error (Cpu × Nat) := do
  let old_sp := c.state.stack_pointer
  let value ← c.bus.read_u8 old_sp
  pure ({ c with state := c.state.set_stack_pointer ((old_sp + 1) % 65536) }, value)

/-- Cpu::pop_u16: low byte first, then high byte. -/
def Cpu.pop_u16 (c : Cpu) : Except Error (Cpu × Nat) := do
  let (c, lo) ← c.pop_u8
  let (c, hi) ← c.pop_u8
  pure (c, (hi <<< 8) ||| lo)

def Cpu.is_condition_met (c : Cpu) (cond : Condition) : Bool :=
  match cond with
  | .Nz => !c.state.flags.zero
  | .Z => c.state.flags.zero
  | .Nc => !c.state.flags.carry
  | .C => c.state.flags.carry

/-- Cpu::rel_jump_dest: `((address_after as i32 + offset as i32) & 0xFFFF) as u16`,
which for i32 two's complement equals the mathematical remainder mod 2^16. -/
def Cpu.rel_jump_dest (c : Cpu) (offset : Int) (instr_len : Nat) : Nat :=
  let address_after : Nat := (c.state.instruction_pointer + instr_len) % 65536  -- wrapping_add
  (((address_after : Int) + offset) % (65536 : Int)).toNat

def Cpu.update_r16_stack (c : Cpu) (r16stk : Register16Stack) (value : Nat) : Cpu :=
  match r16stk with
  | .Af => { c with state := c.state.set_reg_af value }
  | .Bc => { c with state := c.state.set_reg_bc value }
  | .De => { c with state := c.state.set_reg_de value }
  | .Hl => { c with state := c.state.set_reg_hl value }

def Cpu.get_r16_stack (c : Cpu) (r16stk : Register16Stack) : Nat :=
  match r16stk with
  | .Af => c.state.reg_af
  | .Bc => c.state.reg_bc
  | .De => c.state.reg_de
  | .Hl => c.state.reg_hl

def Cpu.after_r16_mem (c : Cpu) (r16mem : Register16Memory) : Cpu :=
  match r16mem with
  | .Hld => { c with state := c.state.set_reg_hl ((c.state.reg_hl + 65536 - 1) % 65536) }
  | .Hli => { c with state := c.state.set_reg_hl ((c.state.reg_hl + 1) % 65536) }
  | _ => c

def Cpu.update_r16_mem_u8 (c : Cpu) (r16mem : Register16Memory) (value : Nat) :
    Except Error Cpu := do
  let b ← match r16mem with
    | .Bc => c.bus.write_u8 c.state.reg_bc value
    | .De => c.bus.write_u8 c.state.reg_de value
    | .Hli | .Hld => c.bus.write_u8 c.state.reg_hl value
  let c := { c with bus := b }
  pure (c.after_r16_mem r16mem)

def Cpu.get_r16_mem_u8 (c : Cpu) (r16mem : Register16Memory) : Except Error (Cpu × Nat) := do
  let val ← match r16mem with
    | .Bc => c.bus.read_u8 c.state.reg_bc
    | .De => c.bus.read_u8 c.state.reg_de
    | .Hli | .Hld => c.bus.read_u8 c.state.reg_hl
  pure (c.after_r16_mem r16mem, val)

def Cpu.update_r16 (c : Cpu) (r16 : Register16) (value : Nat) : Cpu :=
  match r16 with
  | .Bc => { c with state := c.state.set_reg_bc value }
  | .De => { c with state := c.state.set_reg_de value }
  | .Hl => { c with state := c.state.set_reg_hl value }
  | .Sp => { c with state := c.state.set_stack_pointer value }

def Cpu.get_r16 (c : Cpu) (r16 : Register16) : Nat :=
  match r16 with
  | .Bc => c.state.reg_bc
  | .De => c.state.reg_de
  | .Hl => c.state.reg_hl
  | .Sp => c.state.stack_pointer

def Cpu.update_r8 (c : Cpu) (r8 : Register8) (value : Nat) : Except Error Cpu :=
  match r8 with
  | .A => .ok { c with state := c.state.set_reg_a value }
  | .B => .ok { c with state := c.state.set_reg_b value }
  | .C => .ok { c with state := c.state.set_reg_c value }
  | .D => .ok { c with state := c.state.set_reg_d value }
  | .E => .ok { c with state := c.state.set_reg_e value }
  | .H => .ok { c with state := c.state.set_reg_h value }
  | .L => .ok { c with state := c.state.set_reg_l value }
  | .HlIndirect => (c.bus.write_u8 c.state.reg_hl value).map fun b => { c with bus := b }

def Cpu.get_r8 (c : Cpu) (r8 : Register8) : Except Error Nat :=
  match r8 with
  | .A => .ok c.state.reg_a
  | .B => .ok c.state.reg_b
  | .C => .ok c.state.reg_c
  | .D => .ok c.state.reg_d
  | .E => .ok c.state.reg_e
  | .H => .ok c.state.reg_h
  | .L => .ok c.state.reg_l
  | .HlIndirect => c.bus.read_u8 c.state.reg_hl

def Cpu.clear_requested_interrupt (c : Cpu) (interrupt : Interrupt) : Cpu :=
  { c with bus := { c.bus with io_regs := { c.bus.io_regs with
      interrupts := c.bus.io_regs.interrupts.clear_requested_interrupt interrupt } } }

def Cpu.detect_interrupt (c : Cpu) : Option Interrupt :=
  c.bus.io_regs.interrupts.highest_priority_triggered_interrupt

/-- Cpu::call_interrupt_handler: push the current PC and jump to the vector. -/
def Cpu.call_interrupt_handler (c : Cpu) (interrupt : Interrupt) : Except Error Cpu := do
  let vector : Nat := match interrupt with
    | .VBlank => 0x40
    | .Lcd => 0x48
    | .Timer => 0x50
    | .Serial => 0x58
    | .Joypad => 0x60
  let c ← c.push_u16 c.state.instruction_pointer
  pure { c with state := c.state.set_instruction_pointer vector }

/-- Cpu::do_dma_transfer: copies all 160 bytes at once (source and
destination addresses are unchecked u16 adds, embedded as wrap). -/
def Cpu.do_dma_transfer (c : Cpu) : Except Error Cpu := do
  let source_address := c.bus.io_regs.dma.full_source_address
  (List.range DMA_TRANSFER_CYCLES_LENGTH).foldlM
    (fun (c : Cpu) i => do
      let byte ← c.bus.read_u8 ((source_address + i) % 65536)
      let b ← c.bus.write_u8 ((0xFE00 + i) % 65536) byte
      pure { c with bus := b })
    c

def Cpu.step_dma (c : Cpu) (cycles : Nat) : Cpu × Bool :=
  let (d, done) := c.bus.io_regs.dma.step cycles
  ({ c with bus := { c.bus with io_regs := { c.bus.io_regs with dma := d } } }, done)

/-- The instruction-dispatch match of Cpu::step (the body of the big `match
current_instruction` block), factored into a named function so individual
arms can be exercised directly.  Returns the new CPU, the next instruction
address and the accumulated cycles, as the inline match does.  -/
def Cpu.execute_instruction (c : Cpu) (current_instruction : Instruction)
    (next_instruction_address cycles : Nat) : Except Error (Cpu × Nat × Nat) :=
  match current_instruction with
    | .Nop => pure (c, next_instruction_address, cycles)
    | .LdReg16 r16 imm16 =>
      pure (c.update_r16 r16 imm16, next_instruction_address, cycles)
    | .LdMemA r16mem => do
      let a ← c.get_r8 .A
      let c ← c.update_r16_mem_u8 r16mem a
      pure (c, next_instruction_address, cycles)
    | .LdAMem r16mem => do
      let (c, new_a) ← c.get_r16_mem_u8 r16mem
      let c ← c.update_r8 .A new_a
      pure (c, next_instruction_address, cycles)
    | .LdImm16Sp imm16 => do
      let b ← c.bus.write_u16 imm16 c.state.stack_pointer
      pure ({ c with bus := b }, next_instruction_address, cycles)
    | .Inc16 r16 =>
      pure (c.update_r16 r16 (c.inc_u16 (c.get_r16 r16)), next_instruction_address, cycles)
    | .Dec16 r16 =>
      pure (c.update_r16 r16 (c.dec_u16 (c.get_r16 r16)), next_instruction_address, cycles)
    | .AddHl r16 => do
      let val1 := c.get_r16 .Hl
      let val2 := c.get_r16 r16
      let (c, result) := c.add_u16 val1 val2
      pure (c.update_r16 r16 result, next_instruction_address, cycles)
    | .Inc8 r8 => do
      let val ← c.get_r8 r8
      let (c, result) := c.inc_u8 val
      let c ← c.update_r8 r8 result
      pure (c, next_instruction_address, cycles)
    | .Dec8 r8 => do
      let val ← c.get_r8 r8
      let (c, result) := c.dec_u8 val
      let c ← c.update_r8 r8 result
      pure (c, next_instruction_address, cycles)
    | .LdReg8Imm r8 imm8 => do
      let c ← c.update_r8 r8 imm8
      pure (c, next_instruction_address, cycles)
    | .Rlca => do
      let a ← c.get_r8 .A
      let (c, result) := c.rotate_left_u8 a false false
      let c ← c.update_r8 .A result
      pure (c, next_instruction_address, cycles)
    | .Rrca => do
      let a ← c.get_r8 .A
      let (c, result) := c.rotate_right_u8 a false false
      let c ← c.update_r8 .A result
      pure (c, next_instruction_address, cycles)
    | .Rla => do
      let a ← c.get_r8 .A
      let (c, result) := c.rotate_left_u8 a false true
      let c ← c.update_r8 .A result
      pure (c, next_instruction_address, cycles)
    | .Rra => do
      let a ← c.get_r8 .A
      let (c, result) := c.rotate_right_u8 a false true
      let c ← c.update_r8 .A result
      pure (c, next_instruction_address, cycles)
    | .Daa => do
      let a ← c.get_r8 .A
      let (c, result) := c.decimal_adjust a
      let c ← c.update_r8 .A result
      pure (c, next_instruction_address, cycles)
    | .Cpl => do
      let a ← c.get_r8 .A
      let (c, result) := c.not_u8 a
      let c ← c.update_r8 .A result
      pure (c, next_instruction_address, cycles)
    | .Scf =>
      let f := { c.state.flags with subtraction := false, half_carry := false, carry := true }
      pure (c.setFlags f, next_instruction_address, cycles)
    | .Ccf =>
      let f := { c.state.flags with subtraction := false, half_carry := false, carry := !c.state.flags.carry }
      pure (c.setFlags f, next_instruction_address, cycles)
    | .JrImm imm8 =>
      pure (c, c.rel_jump_dest (imm8ToI8 imm8) current_instruction.length, cycles)
    | .JrCond cond imm8 => do
      let dest := c.rel_jump_dest (imm8ToI8 imm8) current_instruction.length
      if c.is_condition_met cond then
        pure (c, dest, cycles + 1)
      else
        pure (c, next_instruction_address, cycles)
    | .Stop => do
      -- resets the divider, halts, then reaches the `todo` macro: a panic
      let c := { c with bus := { c.bus with io_regs := { c.bus.io_regs with
        timer := c.bus.io_regs.timer.set_divider 0 } } }
      let _c := { c with halted := true }
      Except.error Error.Panic
    | .LdReg8Reg8 dest src => do
      let val ← c.get_r8 src
      let c ← c.update_r8 dest val
      pure (c, next_instruction_address, cycles)
    | .Halt => pure ({ c with halted := true }, next_instruction_address, cycles)
    | .AddReg8 r8 => do
      let val ← c.get_r8 r8
      let a ← c.get_r8 .A
      let (c, result) := c.add_u8 val a
      let c ← c.update_r8 .A result
      pure (c, next_instruction_address, cycles)
    | .AdcReg8 r8 => do
      let val ← c.get_r8 r8
      let a ← c.get_r8 .A
      let (c, result) := c.adc_u8 val a
      let c ← c.update_r8 .A result
      pure (c, next_instruction_address, cycles)
    | .SubReg8 r8 => do
      let val ← c.get_r8 r8
      let a ← c.get_r8 .A
      let (c, result) := c.sub_u8 val a
      let c ← c.update_r8 .A result
      pure (c, next_instruction_address, cycles)
    | .SbcReg8 r8 => do
      let val ← c.get_r8 r8
      let a ← c.get_r8 .A
      let (c, result) := c.sbc_u8 val a
      let c ← c.update_r8 .A result
      pure (c, next_instruction_address, cycles)
    | .AndReg8 r8 => do
      let val ← c.get_r8 r8
      let a ← c.get_r8 .A
      let (c, result) := c.and_u8 val a
      let c ← c.update_r8 .A result
      pure (c, next_instruction_address, cycles)
    | .XorReg8 r8 => do
      let val ← c.get_r8 r8
      let a ← c.get_r8 .A
      let (c, result) := c.xor_u8 val a
      let c ← c.update_r8 .A result
      pure (c, next_instruction_address, cycles)
    | .OrReg8 r8 => do
      let val ← c.get_r8 r8
      let a ← c.get_r8 .A
      let (c, result) := c.or_u8 val a
      let c ← c.update_r8 .A result
      pure (c, next_instruction_address, cycles)
    | .CpReg8 r8 => do
      let val ← c.get_r8 r8
      let a ← c.get_r8 .A
      pure (c.cp_u8 val a, next_instruction_address, cycles)
    | .AddImm8 imm8 => do
      let a ← c.get_r8 .A
      let (c, result) := c.add_u8 imm8 a
      let c ← c.update_r8 .A result
      pure (c, next_instruction_address, cycles)
    | .AdcImm8 imm8 => do
      let a ← c.get_r8 .A
      let (c, result) := c.adc_u8 imm8 a
      let c ← c.update_r8 .A result
      pure (c, next_instruction_address, cycles)
    | .SubImm8 imm8 => do
      let a ← c.get_r8 .A
      let (c, result) := c.sub_u8 imm8 a
      let c ← c.update_r8 .A result
      pure (c, next_instruction_address, cycles)
    | .SbcImm8 imm8 => do
      let a ← c.get_r8 .A
      let (c, result) := c.sbc_u8 imm8 a
      let c ← c.update_r8 .A result
      pure (c, next_instruction_address, cycles)
    | .AndImm8 imm8 => do
      let a ← c.get_r8 .A
      let (c, result) := c.and_u8 imm8 a
      let c ← c.update_r8 .A result
      pure (c, next_instruction_address, cycles)
    | .XorImm8 imm8 => do
      let a ← c.get_r8 .A
      let (c, result) := c.xor_u8 imm8 a
      let c ← c.update_r8 .A result
      pure (c, next_instruction_address, cycles)
    | .OrImm8 imm8 => do
      let a ← c.get_r8 .A
      let (c, result) := c.or_u8 imm8 a
      let c ← c.update_r8 .A result
      pure (c, next_instruction_address, cycles)
    | .CpImm8 imm8 => do
      let a ← c.get_r8 .A
      pure (c.cp_u8 imm8 a, next_instruction_address, cycles)
    | .RetCond cond => do
      if c.is_condition_met cond then
        let (c, v) ← c.pop_u16
        pure (c, v, cycles + 3)
      else
        pure (c, next_instruction_address, cycles)
    | .Ret => do
      let (c, v) ← c.pop_u16
      pure (c, v, cycles)
    | .Reti => do
      let c := { c with state := c.state.set_interrupts_enabled true }
      let (c, v) ← c.pop_u16
      pure (c, v, cycles)
    | .JpCond cond imm16 => do
      if c.is_condition_met cond then
        pure (c, imm16, cycles + 1)
      else
        pure (c, next_instruction_address, cycles)
    | .JpImm imm16 => pure (c, imm16, cycles)
    | .JpHl => pure (c, c.get_r16 .Hl, cycles)
    | .CallCond cond imm16 => do
      if c.is_condition_met cond then
        let c ← c.push_u16 next_instruction_address
        pure (c, imm16, cycles + 3)
      else
        pure (c, next_instruction_address, cycles)
    | .CallImm imm16 => do
      let c ← c.push_u16 next_instruction_address
      pure (c, imm16, cycles)
    | .Rst tgt => do
      -- `tgt.into()`: the only conversion the source defines for Target
      -- yields the raw 3-bit index (not index * 8)
      let c ← c.push_u16 next_instruction_address
      pure (c, tgt, cycles)
    | .Pop r16stk => do
      let (c, value) ← c.pop_u16
      pure (c.update_r16_stack r16stk value, next_instruction_address, cycles)
    | .Push r16stk => do
      let value := c.get_r16_stack r16stk
      let c ← c.push_u16 value
      pure (c, next_instruction_address, cycles)
    | .LdhMemA => do
      let val ← c.get_r8 .A
      let cc ← c.get_r8 .C
      let b ← c.bus.write_u8 (0xFF00 + cc) val
      pure ({ c with bus := b }, next_instruction_address, cycles)
    | .LdhImmA imm8 => do
      let val ← c.get_r8 .A
      let b ← c.bus.write_u8 (0xFF00 + imm8) val
      pure ({ c with bus := b }, next_instruction_address, cycles)
    | .LdImmA imm16 => do
      let val ← c.get_r8 .A
      let b ← c.bus.write_u8 imm16 val
      pure ({ c with bus := b }, next_instruction_address, cycles)
    | .LdhAMem => do
      let cc ← c.get_r8 .C
      let val ← c.bus.read_u8 (0xFF00 + cc)
      let c ← c.update_r8 .A val
      pure (c, next_instruction_address, cycles)
    | .LdhAImm imm8 => do
      let val ← c.bus.read_u8 (0xFF00 + imm8)
      let c ← c.update_r8 .A val
      pure (c, next_instruction_address, cycles)
    | .LdAImm imm16 => do
      let val ← c.bus.read_u8 imm16
      let c ← c.update_r8 .A val
      pure (c, next_instruction_address, cycles)
    | .AddSp imm8 => do
      -- the source calls `add_u16` with the zero-extended immediate
      let sp := c.state.stack_pointer
      let (c, new_sp) := c.add_u16 sp imm8
      pure ({ c with state := c.state.set_stack_pointer new_sp },
            next_instruction_address, cycles)
    | .LdHlSpImm8 imm8 => do
      let sp := c.state.stack_pointer
      let (c, val) := c.add_u16 sp imm8
      pure (c.update_r16 .Hl val, next_instruction_address, cycles)
    | .LdSpHl =>
      pure ({ c with state := c.state.set_stack_pointer (c.get_r16 .Hl) },
            next_instruction_address, cycles)
    | .Di =>
      pure ({ c with state := c.state.set_interrupts_enabled false,
                     interrupt_enable_next := false },
            next_instruction_address, cycles)
    | .Ei => pure ({ c with interrupt_enable_next := true }, next_instruction_address, cycles)
    | .Rlc r8 => do
      let val ← c.get_r8 r8
      let (c, result) := c.rotate_left_u8 val true false
      let c ← c.update_r8 r8 result
      pure (c, next_instruction_address, cycles)
    | .Rrc r8 => do
      let val ← c.get_r8 r8
      let (c, result) := c.rotate_right_u8 val true false
      let c ← c.update_r8 r8 result
      pure (c, next_instruction_address, cycles)
    | .Rl r8 => do
      let val ← c.get_r8 r8
      let (c, result) := c.rotate_left_u8 val true true
      let c ← c.update_r8 r8 result
      pure (c, next_instruction_address, cycles)
    | .Rr r8 => do
      let val ← c.get_r8 r8
      let (c, result) := c.rotate_right_u8 val true true
      let c ← c.update_r8 r8 result
      pure (c, next_instruction_address, cycles)
    | .Sla r8 => do
      let val ← c.get_r8 r8
      let (c, result) := c.shift_left_arithmetic val
      let c ← c.update_r8 r8 result
      pure (c, next_instruction_address, cycles)
    | .Sra r8 => do
      let val ← c.get_r8 r8
      let (c, result) := c.shift_right_arithmetic val
      let c ← c.update_r8 r8 result
      pure (c, next_instruction_address, cycles)
    | .Swap r8 => do
      let val ← c.get_r8 r8
      let (c, result) := c.swap_u8 val
      let c ← c.update_r8 r8 result
      pure (c, next_instruction_address, cycles)
    | .Srl r8 => do
      let val ← c.get_r8 r8
      let (c, result) := c.shift_right_logical val
      let c ← c.update_r8 r8 result
      pure (c, next_instruction_address, cycles)
    | .Res idx r8 => do
      let val ← c.get_r8 r8
      let c ← c.update_r8 r8 (c.reset_bit_u8 idx val)
      pure (c, next_instruction_address, cycles)
    | .Set idx r8 => do
      let val ← c.get_r8 r8
      let c ← c.update_r8 r8 (c.set_bit_u8 idx val)
      pure (c, next_instruction_address, cycles)
    | .Bit idx r8 => do
      let val ← c.get_r8 r8
      pure (c.test_bit_u8 idx val, next_instruction_address, cycles)

/-- Cpu::step, the per-instruction executor.  Mirrors cpu/mod.rs faithfully,
in particular: a serviced interrupt does NOT end the step - execution falls
through to decode and run the instruction now at the vector address; the
`AddHl` arm calls `add_u16` (Z-updating) and stores the result back into
the operand register `r16`, not HL; the `Stop` arm reaches the `todo`
macro, a panic. -/
def Cpu.step (c : Cpu) : Except Error (Cpu × Nat) := do
  let cycles := 0
  -- if halted: return Ok(1) unless an interrupt is pending, which wakes up
  if c.halted && (c.detect_interrupt).isNone then
    return (c, 1)
  let c := if c.halted then { c with halted := false } else c
  let (c, cycles) ←
    if c.state.interrupts_enabled then
      match c.detect_interrupt with
      | some interrupt => do
        let cycles := cycles + 5
        let c := c.clear_requested_interrupt interrupt
        let c := { c with state := c.state.set_interrupts_enabled false }
        let c ← c.call_interrupt_handler interrupt
        pure (c, cycles)
      | none => pure (c, cycles)
    else pure (c, cycles)
  let current_instruction ← Decoder.decode_one c.state c.bus
  let next_instruction_address :=
    (c.state.instruction_pointer + current_instruction.length) % 65536  -- wrapping_add
  let cycles := cycles + current_instruction.base_num_cycles
  -- deferred-EI commit; the source condition is
  -- `(interrupt_enable_next & interrupt_enable_next) != interrupts_enabled`
  let c :=
    if (c.interrupt_enable_next && c.interrupt_enable_next) ≠ c.state.interrupts_enabled then
      { c with state := c.state.set_interrupts_enabled true, interrupt_enable_next := false }
    else c
  let (c, next_instruction_address, cycles) ←
    c.execute_instruction current_instruction next_instruction_address cycles
  let c := { c with state := c.state.set_instruction_pointer next_instruction_address }
  let (c, dma_done) := c.step_dma cycles
  let c ← if dma_done then c.do_dma_transfer else pure c
  pure (c, cycles)

/-! ## Concrete fixtures used by the theorems below -/

/-- A boot ROM filled with 0x00 (NOP) bytes. -/
def bootRomZero : BootRom := { contents := fun _ => 0 }

def cartZero : Cartridge := { bank0 := fun _ => 0, bank1 := fun _ => 0 }

/-- A freshly constructed bus (all RAMs and registers zeroed, boot ROM
mapped, as `Bus::new` produces). -/
def busInit : Bus := Bus.new bootRomZero cartZero

/-- A bus with IE = 0x01 and IF = 0x01 (VBlank requested and enabled). -/
def busVBlankPending : Bus :=
  { busInit with io_regs :=
    { busInit.io_regs with interrupts := { interrupt_flag := 1, interrupt_enable := 1 } } }

/-- CPU with IME on, a pending enabled VBlank interrupt, PC = `p`, and the
reset register file (SP = 0xFFFF).  The NOP boot ROM puts a NOP at the
0x0040 interrupt vector. -/
def cpuVBlankPending (p : Nat) : Cpu :=
  { state :=
      { ExecutionState.new with instruction_pointer := p, interrupts_enabled := true }
    bus := busVBlankPending
    interrupt_enable_next := false
    halted := false }

def stateAddHl : ExecutionState :=
  { ExecutionState.new with
    reg_hl := 1
    reg_bc := 2
    flags := { Flags.zeros with zero := true } }

/-- CPU with HL = 1, BC = 2 and the Z flag set, on the fresh bus. -/
def cpuAddHl : Cpu :=
  { state := stateAddHl, bus := busInit, interrupt_enable_next := false, halted := false }

/-- CPU on the fresh bus whose boot ROM starts with the 0x09 opcode byte
(ADD HL,BC), register file as in `cpuAddHl`. -/
def cpuAddHlOpcode : Cpu :=
  { cpuAddHl with bus :=
    { busInit with boot_rom := { contents := fun a => if a = 0 then 0x09 else 0 } } }

/-- An enabled timer at the fastest rate (one TIMA increment per 4 M-cycles),
with TIMA = TMA = 0. -/
def timerEnabledFast : Timer :=
  { Timer.new with timer_control := { enable := true, clock_select := .Every4MCycles } }

/-- The same timer one tick before overflow, with TMA = 0xAB. -/
def timerAtFF : Timer :=
  { timerEnabledFast with timer_counter := 0xFF, timer_modulo := 0xAB }

/-- Joypad port with the action-button group selected and nothing pressed. -/
def joypadButtons : JoypadInput := { JoypadInput.new with selection := .Buttons }

/-- Input state with only Start held down. -/
def inputStart : InputState := { InputState.empty with start_pressed := true }

/-- CPU on the fresh bus with an arbitrary stack pointer. -/
def cpuWithSp (sp : Nat) : Cpu :=
  { Cpu.new busInit with state := ExecutionState.new.set_stack_pointer sp }

/-- Follows the words of the spec for `read_u16`: exactly two byte accesses,
at `addr` and at `addr+1` taken modulo 2^16, combined little-endian
(value = high byte * 256 + low byte), failure exactly when a byte access
fails. -/
def read_u16_twoByteAccesses (b : Bus) (addr : Nat) : Except Error Nat :=
  match b.read_u8 addr with
  | .error e => .error e
  | .ok lo =>
    match b.read_u8 ((addr + 1) % 65536) with
    | .error e => .error e
    | .ok hi => .ok (hi * 256 + lo)

/-- Follows the words of the spec for `write_u16`: exactly two byte accesses,
the high byte to `addr+1` taken modulo 2^16 and the low byte to `addr`;
the address increment wraps and is never an error by itself. -/
def write_u16_twoByteAccesses (b : Bus) (addr data : Nat) : Except Error Bus :=
  match b.write_u8 ((addr + 1) % 65536) ((data / 256) % 256) with
  | .error e => .error e
  | .ok b1 => b1.write_u8 addr (data % 256)

/-! ## Helper lemmas -/

/-- Recombining a high byte shifted left by 8 with a low byte below 256 is
plain positional arithmetic. -/
theorem lor_shift8_add (hi lo : Nat) (h : lo < 256) :
    (hi <<< 8) ||| lo = hi * 256 + lo := by
  rw [Nat.shiftLeft_eq, Nat.mul_comm]
  exact (Nat.mul_add_lt_is_or h hi).symm

/-- The double truncation in `push_u16`/`pop_u16` recovers any 16-bit value. -/
theorem split16_recombine (v : Nat) (hv : v < 65536) :
    ((v / 256 % 256) <<< 8) ||| v % 256 = v := by
  rw [lor_shift8_add _ _ (Nat.mod_lt _ (by norm_num))]
  omega

set_option maxRecDepth 8192 in
/-- The OAM flag byte round trip keeps exactly the high nibble. -/
theorem oam_flags_roundtrip : ∀ v < 256, (Oam.Flags.fromU8 v).toU8 = v &&& 0xF0 := by
  decide

/-- A state with A = 0x12 and all four flags set. -/
def stateAllFlagsSet : ExecutionState :=
  { ExecutionState.new with reg_a := 0x12, flags := Flags.mk true true true true }

/-! ## Claim theorems -/

/-- C2: the claim says the F byte (low byte of AF) always packs Z,N,H,C into
bits 7..4.  The code's `From<Flags> for u8` shifts the 0/1 flag bits RIGHT
instead of left, so every flag state encodes to 0x00: with all four flags
set, AF reads 0x1200 where the claim demands 0x12F0.  (The inverse
`From<u8> for Flags` in the same file decodes bits 7..4, confirming the
intended encoding, so this is a code bug.) -/
theorem C2_flags_byte_reads_zero :
    (∀ cf hf sf zf, Flags.toU8 (Flags.mk cf hf sf zf) = 0) ∧
    stateAllFlagsSet.reg_af = 0x1200 := by
  decide

/-- C4: the claim says an enabled timer increments TIMA once per elapsed
TAC-selected period, observably.  With the fastest rate (one increment per
4 M-cycles) and TIMA = 0, stepping by exactly one period consumes the
period (the internal cycle accumulator returns to 0) yet TIMA still reads
0 - `Timer::step` discards the result of `overflowing_add` and only writes
the counter on overflow.  The overflow path itself does reload TMA (0xAB)
and report the interrupt. -/
theorem C4_tima_increment_discarded :
    (Timer.step timerEnabledFast 4).1.read_timer_counter = 0 ∧
    (Timer.step timerEnabledFast 4).2 = false ∧
    (Timer.step timerEnabledFast 4).1.cycles = 0 ∧
    (Timer.step timerAtFF 4).1.read_timer_counter = 0xAB ∧
    (Timer.step timerAtFF 4).2 = true := by
  decide

/-- C5: the claim says ADD HL,rr stores HL + rr into HL, preserves Z and
leaves rr unchanged.  The executor's `AddHl` arm calls `add_u16` (which
updates Z) instead of the purpose-built Z-preserving `add_hl`, and stores
the sum into the operand register: from HL = 1, BC = 2, Z = 1, executing
`AddHl Bc` yields BC = 3, HL = 1, Z = 0.  Moreover `TryFrom<u8> for
Opcode` has no pattern producing `AddHl` at all, so the four ADD HL,rr
opcode bytes (0x09/0x19/0x29/0x39) decode to `InvalidInstruction` and a
full `step` over opcode 0x09 fails. -/
theorem C5_add_hl_writes_operand_not_hl :
    ((Cpu.execute_instruction cpuAddHl (.AddHl .Bc) 1 2).toOption.map fun p =>
      (p.1.state.reg_bc, p.1.state.reg_hl, p.1.state.flags.zero)) = some (3, 1, false) ∧
    (Opcode.tryFromU8 0x09).toOption.isNone = true ∧
    (Opcode.tryFromU8 0x19).toOption.isNone = true ∧
    (Opcode.tryFromU8 0x29).toOption.isNone = true ∧
    (Opcode.tryFromU8 0x39).toOption.isNone = true ∧
    (Cpu.step cpuAddHlOpcode).toOption.isNone = true := by
  decide

/-- C6: the claim says the Joypad interrupt is raised exactly when a
selected button's level goes high to low (newly pressed).  The code's edge
detector tests `before = 0 and now = 1`, i.e. low to high: pressing Start
(bit 3 goes 1 to 0) raises nothing, and releasing it (0 to 1) raises the
interrupt - the exact inverse of the claim. -/
theorem C6_joypad_interrupt_fires_on_release :
    (joypadButtons.step inputStart).2 = false ∧
    ((joypadButtons.step inputStart).1.step InputState.empty).2 = true := by
  decide

/-- C3 counterexample: on a freshly constructed bus, a read of 0xA000 is a
`MemoryReadFault`, not the claimed 0xFF; likewise 0xFEA0, and 0xFFFF does
not return the IE register. -/
theorem C3_counterexample :
    busInit.read_u8 0xA000 = .error (.MemoryReadFault 0xA000) ∧
    busInit.read_u8 0xFEA0 = .error (.MemoryReadFault 0xFEA0) ∧
    busInit.read_u8 0xFFFF = .error (.MemoryReadFault 0xFFFF) ∧
    busInit.read_u8 0xA000 ≠ .ok 0xFF := by
  refine ⟨rfl, rfl, rfl, fun h => ?_⟩
  rw [show busInit.read_u8 0xA000 = .error (.MemoryReadFault 0xA000) from rfl] at h
  exact Except.noConfusion h

/-- C3 amended: for every bus state, reads of 0xA000-0xBFFF (external
cartridge RAM), 0xFEA0-0xFEFF (prohibited) and 0xFFFF all return
`MemoryReadFault(addr)` - `Bus::read_u8` has no arm for these addresses. -/
theorem C3_amended_unmapped_reads_fault (b : Bus) (a : Nat)
    (h : (0xA000 ≤ a ∧ a ≤ 0xBFFF) ∨ (0xFEA0 ≤ a ∧ a ≤ 0xFEFF) ∨ a = 0xFFFF) :
    b.read_u8 a = .error (.MemoryReadFault a) := by
  unfold Bus.read_u8
  rw [if_neg (by omega), if_neg (by omega), if_neg (by omega), if_neg (by omega)]
  rw [if_neg (by omega), if_neg (by omega), if_neg (by omega), if_neg (by omega)]

/-- C3 amended, witness at concrete addresses. -/
theorem C3_amended_witness :
    busInit.read_u8 0xB123 = .error (.MemoryReadFault 0xB123) ∧
    busInit.read_u8 0xFEFF = .error (.MemoryReadFault 0xFEFF) ∧
    busInit.read_u8 0xFFFF = .error (.MemoryReadFault 0xFFFF) :=
  ⟨C3_amended_unmapped_reads_fault busInit 0xB123 (Or.inl (by omega)),
   C3_amended_unmapped_reads_fault busInit 0xFEFF (Or.inr (Or.inl (by omega))),
   C3_amended_unmapped_reads_fault busInit 0xFFFF (Or.inr (Or.inr rfl))⟩

/-- C8 counterexample: writing 0xFF to IF and reading it back yields 0x1F,
not the claimed `0xE0 | bits` = 0xFF. -/
theorem C8_counterexample :
    ((busInit.write_u8 0xFF0F 0xFF).toOption.map fun b => (b.read_u8 0xFF0F).toOption) =
      some (some 0x1F) ∧ (0x1F : Nat) ≠ 0xE0 ||| 0x1F := by
  decide

/-- C8 amended: every read of IF at 0xFF0F returns the five stored request
bits with the upper three bits 0 (the value is `bits & 0x1F` < 0x20), not
`0xE0 | bits` - `read_interrupt_flag` masks with 0b0001_1111. -/
theorem C8_amended_if_upper_bits_read_zero (b : Bus) :
    b.read_u8 0xFF0F = .ok (b.io_regs.interrupts.interrupt_flag % 32) ∧
    b.io_regs.interrupts.interrupt_flag % 32 < 0x20 :=
  ⟨rfl, Nat.mod_lt _ (by norm_num)⟩

/-- C10: after an OAM write, reading the same address returns the written
byte for the y/x/tile bytes (offset mod 4 in {0,1,2}) and the byte with its
low nibble cleared for the sprite flag byte (offset mod 4 = 3), because the
flag byte is decoded into four booleans covering only bits 7..4. -/
theorem C10_oam_readback_masks_flag_low_nibble (m : ObjectAttributeMemory) (a v : Nat)
    (h1 : 0xFE00 ≤ a) (h2 : a ≤ 0xFE9F) (hv : v < 256) :
    (m.write_u8 a v).read_u8 a =
      if (a - 0xFE00) % 4 = 3 then v &&& 0xF0 else v := by
  obtain ⟨k, rfl⟩ : ∃ k, a = 0xFE00 + k := ⟨a - 0xFE00, by omega⟩
  unfold ObjectAttributeMemory.write_u8 ObjectAttributeMemory.read_u8
  simp only [Nat.add_sub_cancel_left]
  have h4 : k % 4 = 0 ∨ k % 4 = 1 ∨ k % 4 = 2 ∨ k % 4 = 3 := by omega
  rcases h4 with h4 | h4 | h4 | h4 <;> simp [h4, oam_flags_roundtrip v hv]

/-- C10 witness: sprite 0, flag byte (0xFE03) with 0xFF written reads back
0xF0; tile byte (0xFE02) reads back unchanged. -/
theorem C10_oam_readback_witness :
    (ObjectAttributeMemory.zeroed.write_u8 0xFE03 0xFF).read_u8 0xFE03 =
      (if (0xFE03 - 0xFE00) % 4 = 3 then 0xFF &&& 0xF0 else 0xFF) ∧
    (ObjectAttributeMemory.zeroed.write_u8 0xFE02 0xFF).read_u8 0xFE02 =
      (if (0xFE02 - 0xFE00) % 4 = 3 then 0xFF &&& 0xF0 else 0xFF) :=
  ⟨C10_oam_readback_masks_flag_low_nibble _ 0xFE03 0xFF (by norm_num) (by norm_num)
      (by norm_num),
   C10_oam_readback_masks_flag_low_nibble _ 0xFE02 0xFF (by norm_num) (by norm_num)
      (by norm_num)⟩

/-- C9: for every bus state and address (including 0xFFFF),
`Bus::read_u16`/`write_u16` perform exactly two byte accesses, at `addr` and
at `addr + 1` taken modulo 2^16, in little-endian order; the address
increment wraps (release-build u16 semantics) and is never an error by
itself - any failure is a byte-access failure.  The hypothesis states the
u8 type invariant for the low byte (every byte read is below 256). -/
theorem C9_u16_is_two_byte_accesses (b : Bus) (addr data : Nat)
    (hlo : ∀ v, b.read_u8 addr = .ok v → v < 256) :
    b.read_u16 addr = read_u16_twoByteAccesses b addr ∧
    b.write_u16 addr data = write_u16_twoByteAccesses b addr data := by
  constructor
  · unfold Bus.read_u16 read_u16_twoByteAccesses
    cases h : b.read_u8 addr with
    | error e => simp [h, bind, Except.bind]
    | ok lo =>
      cases h2 : b.read_u8 ((addr + 1) % 65536) with
      | error e => simp [h, h2, bind, Except.bind, Functor.map, Except.map]
      | ok hi => simp [h, h2, bind, Except.bind, Functor.map, Except.map,
          pure, Except.pure, lor_shift8_add hi lo (hlo lo h)]
  · unfold Bus.write_u16 write_u16_twoByteAccesses
    cases h : b.write_u8 ((addr + 1) % 65536) ((data / 256) % 256) with
    | error e => simp [h, bind, Except.bind]
    | ok b1 => simp [h, bind, Except.bind]

/-- C9 witness at `addr` = 0xFFFE on the fresh bus: the second byte access
lands on 0xFFFF. -/
theorem C9_u16_witness :
    busInit.read_u16 0xFFFE = read_u16_twoByteAccesses busInit 0xFFFE ∧
    busInit.write_u16 0xFFFE 0xABCD = write_u16_twoByteAccesses busInit 0xFFFE 0xABCD :=
  C9_u16_is_two_byte_accesses busInit 0xFFFE 0xABCD (fun v h => by
    rw [show busInit.read_u8 0xFFFE = Except.ok 0 from rfl] at h
    cases h
    norm_num)

/-- The bus regions whose reads return exactly what was written: work RAM
and high RAM. -/
abbrev value_preserving_ram (a : Nat) : Prop :=
  (0xC000 ≤ a ∧ a ≤ 0xDFFF) ∨ (0xFF80 ≤ a ∧ a ≤ 0xFFFE)

theorem bus_write_wram (b : Bus) (a d : Nat) (h1 : 0xC000 ≤ a) (h2 : a ≤ 0xDFFF) :
    b.write_u8 a d = .ok { b with work_ram := b.work_ram.write_u8 a d } := by
  unfold Bus.write_u8
  rw [if_neg (by omega), if_neg (by omega), if_pos ⟨h1, h2⟩]

theorem bus_write_hram (b : Bus) (a d : Nat) (h1 : 0xFF80 ≤ a) (h2 : a ≤ 0xFFFE) :
    b.write_u8 a d = .ok { b with high_ram := b.high_ram.write_u8 a d } := by
  unfold Bus.write_u8
  rw [if_neg (by omega), if_neg (by omega), if_neg (by omega), if_neg (by omega),
      if_neg (by omega), if_pos ⟨h1, h2⟩]

theorem bus_read_wram (b : Bus) (a : Nat) (h1 : 0xC000 ≤ a) (h2 : a ≤ 0xDFFF) :
    b.read_u8 a = .ok (b.work_ram.read_u8 a) := by
  unfold Bus.read_u8
  rw [if_neg (by omega), if_neg (by omega), if_neg (by omega), if_neg (by omega),
      if_pos ⟨h1, h2⟩]

theorem bus_read_hram (b : Bus) (a : Nat) (h1 : 0xFF80 ≤ a) (h2 : a ≤ 0xFFFE) :
    b.read_u8 a = .ok (b.high_ram.read_u8 a) := by
  unfold Bus.read_u8
  rw [if_neg (by omega), if_neg (by omega), if_neg (by omega), if_neg (by omega)]
  rw [if_neg (by omega), if_neg (by omega), if_neg (by omega), if_pos ⟨h1, h2⟩]

theorem wram_rw_same (w : WorkRam) (a d : Nat) : (w.write_u8 a d).read_u8 a = d := by
  simp only [WorkRam.write_u8, WorkRam.read_u8, if_true, eq_self_iff_true]

theorem wram_rw_other (w : WorkRam) (a d a' : Nat) (h : a' - 0xC000 ≠ a - 0xC000) :
    (w.write_u8 a d).read_u8 a' = w.read_u8 a' := by
  simp only [WorkRam.write_u8, WorkRam.read_u8, if_neg h]

theorem hram_rw_same (r : HighRam) (a d : Nat) : (r.write_u8 a d).read_u8 a = d := by
  simp only [HighRam.write_u8, HighRam.read_u8, if_true, eq_self_iff_true]

theorem hram_rw_other (r : HighRam) (a d a' : Nat) (h : a' - 0xFF80 ≠ a - 0xFF80) :
    (r.write_u8 a d).read_u8 a' = r.read_u8 a' := by
  simp only [HighRam.write_u8, HighRam.read_u8, if_neg h]

theorem except_bind_ok {α β ε : Type} (a : α) (f : α → Except ε β) :
    (Except.ok a : Except ε α) >>= f = f a := rfl

theorem except_pure_eq {α ε : Type} (a : α) : (pure a : Except ε α) = Except.ok a := rfl

theorem except_map_ok {α β ε : Type} (f : α → β) (a : α) :
    (f <$> (Except.ok a : Except ε α)) = Except.ok (f a) := rfl

theorem except_toOption_ok {α ε : Type} (a : α) :
    (Except.ok a : Except ε α).toOption = some a := rfl

theorem option_map_some_eq {α β : Type} (f : α → β) (a : α) :
    Option.map f (some a) = some (f a) := rfl

/-- Cpu::push_u8 into high RAM, the decremented stack pointer given
symbolically. -/
theorem push_u8_eq (c : Cpu) (v sp' : Nat)
    (h : (c.state.stack_pointer + 65536 - 1) % 65536 = sp')
    (h1 : 0xFF80 ≤ sp') (h2 : sp' ≤ 0xFFFE) :
    c.push_u8 v = .ok { c with
      state := { c.state with stack_pointer := sp' }
      bus := { c.bus with high_ram := c.bus.high_ram.write_u8 sp' v } } := by
  unfold Cpu.push_u8
  simp only [ExecutionState.set_stack_pointer, h, bus_write_hram c.bus sp' v h1 h2,
    except_bind_ok, except_pure_eq]

/-- Cpu::push_u16 into high RAM, both decremented stack pointers given
symbolically. -/
theorem push_u16_eq (c : Cpu) (v s1 s2 : Nat)
    (h1 : (c.state.stack_pointer + 65536 - 1) % 65536 = s1)
    (h2 : (s1 + 65536 - 1) % 65536 = s2)
    (r1 : 0xFF80 ≤ s1) (r2 : s1 ≤ 0xFFFE) (r3 : 0xFF80 ≤ s2) (r4 : s2 ≤ 0xFFFE) :
    c.push_u16 v = .ok { c with
      state := { c.state with stack_pointer := s2 }
      bus := { c.bus with high_ram := (c.bus.high_ram.write_u8 s1 (v / 256 % 256)).write_u8 s2 (v % 256) } } := by
  unfold Cpu.push_u16
  rw [push_u8_eq c (v / 256 % 256) s1 h1 r1 r2, except_bind_ok]
  have hsp1 : ({ c with
      state := { c.state with stack_pointer := s1 }
      bus := { c.bus with high_ram := c.bus.high_ram.write_u8 s1 (v / 256 % 256) } } : Cpu).state.stack_pointer = s1 := rfl
  exact push_u8_eq _ (v % 256) s2 (by rw [hsp1]; exact h2) r3 r4

/-- Cpu::pop_u8 from high RAM, the incremented stack pointer given
symbolically. -/
theorem pop_u8_eq (c : Cpu) (s1 : Nat)
    (h : (c.state.stack_pointer + 1) % 65536 = s1)
    (r1 : 0xFF80 ≤ c.state.stack_pointer) (r2 : c.state.stack_pointer ≤ 0xFFFE) :
    c.pop_u8 = .ok ({ c with state := { c.state with stack_pointer := s1 } },
      c.bus.high_ram.read_u8 c.state.stack_pointer) := by
  unfold Cpu.pop_u8
  simp only [bus_read_hram c.bus c.state.stack_pointer r1 r2, except_bind_ok,
    except_pure_eq, ExecutionState.set_stack_pointer, h]

/-- Cpu::pop_u16 from high RAM (low byte first). -/
theorem pop_u16_eq (c : Cpu) (s1 s2 : Nat)
    (h1 : (c.state.stack_pointer + 1) % 65536 = s1)
    (h2 : (s1 + 1) % 65536 = s2)
    (r1 : 0xFF80 ≤ c.state.stack_pointer) (r2 : c.state.stack_pointer ≤ 0xFFFE)
    (r3 : 0xFF80 ≤ s1) (r4 : s1 ≤ 0xFFFE) :
    c.pop_u16 = .ok ({ c with state := { c.state with stack_pointer := s2 } },
      (c.bus.high_ram.read_u8 s1 <<< 8) ||| c.bus.high_ram.read_u8 c.state.stack_pointer) := by
  have P2 := pop_u8_eq { c with state := { c.state with stack_pointer := s1 } } s2 h2 r3 r4
  unfold Cpu.pop_u16
  simp only [pop_u8_eq c s1 h1 r1 r2, except_bind_ok, P2, except_pure_eq]

/-- Cpu::push_u8 into work RAM, the decremented stack pointer given
symbolically. -/
theorem push_u8_eq_w (c : Cpu) (v sp' : Nat)
    (h : (c.state.stack_pointer + 65536 - 1) % 65536 = sp')
    (h1 : 0xC000 ≤ sp') (h2 : sp' ≤ 0xDFFF) :
    c.push_u8 v = .ok { c with
      state := { c.state with stack_pointer := sp' }
      bus := { c.bus with work_ram := c.bus.work_ram.write_u8 sp' v } } := by
  unfold Cpu.push_u8
  simp only [ExecutionState.set_stack_pointer, h, bus_write_wram c.bus sp' v h1 h2,
    except_bind_ok, except_pure_eq]

/-- Cpu::push_u16 into work RAM, both decremented stack pointers given
symbolically. -/
theorem push_u16_eq_w (c : Cpu) (v s1 s2 : Nat)
    (h1 : (c.state.stack_pointer + 65536 - 1) % 65536 = s1)
    (h2 : (s1 + 65536 - 1) % 65536 = s2)
    (r1 : 0xC000 ≤ s1) (r2 : s1 ≤ 0xDFFF) (r3 : 0xC000 ≤ s2) (r4 : s2 ≤ 0xDFFF) :
    c.push_u16 v = .ok { c with
      state := { c.state with stack_pointer := s2 }
      bus := { c.bus with work_ram := (c.bus.work_ram.write_u8 s1 (v / 256 % 256)).write_u8 s2 (v % 256) } } := by
  unfold Cpu.push_u16
  rw [push_u8_eq_w c (v / 256 % 256) s1 h1 r1 r2, except_bind_ok]
  have hsp1 : ({ c with
      state := { c.state with stack_pointer := s1 }
      bus := { c.bus with work_ram := c.bus.work_ram.write_u8 s1 (v / 256 % 256) } } : Cpu).state.stack_pointer = s1 := rfl
  exact push_u8_eq_w _ (v % 256) s2 (by rw [hsp1]; exact h2) r3 r4

/-- Cpu::pop_u8 from work RAM, the incremented stack pointer given
symbolically. -/
theorem pop_u8_eq_w (c : Cpu) (s1 : Nat)
    (h : (c.state.stack_pointer + 1) % 65536 = s1)
    (r1 : 0xC000 ≤ c.state.stack_pointer) (r2 : c.state.stack_pointer ≤ 0xDFFF) :
    c.pop_u8 = .ok ({ c with state := { c.state with stack_pointer := s1 } },
      c.bus.work_ram.read_u8 c.state.stack_pointer) := by
  unfold Cpu.pop_u8
  simp only [bus_read_wram c.bus c.state.stack_pointer r1 r2, except_bind_ok,
    except_pure_eq, ExecutionState.set_stack_pointer, h]

/-- Cpu::pop_u16 from work RAM (low byte first). -/
theorem pop_u16_eq_w (c : Cpu) (s1 s2 : Nat)
    (h1 : (c.state.stack_pointer + 1) % 65536 = s1)
    (h2 : (s1 + 1) % 65536 = s2)
    (r1 : 0xC000 ≤ c.state.stack_pointer) (r2 : c.state.stack_pointer ≤ 0xDFFF)
    (r3 : 0xC000 ≤ s1) (r4 : s1 ≤ 0xDFFF) :
    c.pop_u16 = .ok ({ c with state := { c.state with stack_pointer := s2 } },
      (c.bus.work_ram.read_u8 s1 <<< 8) ||| c.bus.work_ram.read_u8 c.state.stack_pointer) := by
  have P2 := pop_u8_eq_w { c with state := { c.state with stack_pointer := s1 } } s2 h2 r3 r4
  unfold Cpu.pop_u16
  simp only [pop_u8_eq_w c s1 h1 r1 r2, except_bind_ok, P2, except_pure_eq]

/-- C7: for every CPU state and 16-bit value `v`, provided SP-1 and SP-2
(computed with the wrapping decrement `push_u8` performs) lie in
value-preserving writable memory (work RAM 0xC000-0xDFFF or high RAM
0xFF80-0xFFFE), `push_u16 v` followed by `pop_u16` succeeds, returns
exactly `v`, and restores SP to its value before the push. -/
theorem C7_push_pop_roundtrip (c : Cpu) (v : Nat) (hv : v < 65536)
    (hsp : c.state.stack_pointer < 65536)
    (h1 : value_preserving_ram ((c.state.stack_pointer + 65536 - 1) % 65536))
    (h2 : value_preserving_ram ((c.state.stack_pointer + 65536 - 2) % 65536)) :
    (c.push_u16 v).toOption.map
        (fun c1 => c1.pop_u16.toOption.map fun q => (q.2, q.1.state.stack_pointer)) =
      some (some (v, c.state.stack_pointer)) := by
  unfold value_preserving_ram at h1 h2
  set sp := c.state.stack_pointer with hsp_def
  have hge : 2 ≤ sp := by omega
  have ea1 : (sp + 65536 - 1) % 65536 = sp - 1 := by omega
  have ea2 : (sp - 1 + 65536 - 1) % 65536 = sp - 2 := by omega
  have ea3 : (sp - 2 + 1) % 65536 = sp - 1 := by omega
  have ea4 : (sp - 1 + 1) % 65536 = sp := by omega
  rw [ea1] at h1
  rw [show (sp + 65536 - 2) % 65536 = sp - 2 from by omega] at h2
  have hkey := split16_recombine v hv
  rcases h1 with h1 | h1 <;> rcases h2 with h2 | h2
  · -- both stack slots in work RAM
    rw [push_u16_eq_w c v (sp - 1) (sp - 2) ea1 ea2 (by omega) (by omega) (by omega) (by omega)]
    have PO := pop_u16_eq_w
      { c with
        state := { c.state with stack_pointer := sp - 2 }
        bus := { c.bus with work_ram := (c.bus.work_ram.write_u8 (sp - 1) (v / 256 % 256)).write_u8 (sp - 2) (v % 256) } }
      (sp - 1) sp ea3 ea4 (show (0xC000 : Nat) ≤ sp - 2 from by omega)
      (show sp - 2 ≤ (0xDFFF : Nat) from by omega) (by omega) (by omega)
    have O1 := fun (w : WorkRam) d => wram_rw_other w (sp - 2) d (sp - 1) (by omega)
    simp only [except_toOption_ok, option_map_some_eq, PO, O1, wram_rw_same, hkey]
  · -- slot below in high RAM, slot above in work RAM: impossible, they are adjacent
    omega
  · omega
  · -- both stack slots in high RAM
    rw [push_u16_eq c v (sp - 1) (sp - 2) ea1 ea2 (by omega) (by omega) (by omega) (by omega)]
    have PO := pop_u16_eq
      { c with
        state := { c.state with stack_pointer := sp - 2 }
        bus := { c.bus with high_ram := (c.bus.high_ram.write_u8 (sp - 1) (v / 256 % 256)).write_u8 (sp - 2) (v % 256) } }
      (sp - 1) sp ea3 ea4 (show (0xFF80 : Nat) ≤ sp - 2 from by omega)
      (show sp - 2 ≤ (0xFFFE : Nat) from by omega) (by omega) (by omega)
    have O1 := fun (r : HighRam) d => hram_rw_other r (sp - 2) d (sp - 1) (by omega)
    simp only [except_toOption_ok, option_map_some_eq, PO, O1, hram_rw_same, hkey]

/-- C7 witness: SP = 0xD000 (stack slots 0xCFFF/0xCFFE in work RAM),
v = 0xBEEF. -/
theorem C7_push_pop_roundtrip_witness :
    ((cpuWithSp 0xD000).push_u16 0xBEEF).toOption.map
        (fun c1 => c1.pop_u16.toOption.map fun q => (q.2, q.1.state.stack_pointer)) =
      some (some (0xBEEF, 0xD000)) :=
  C7_push_pop_roundtrip (cpuWithSp 0xD000) 0xBEEF (by norm_num) (by decide)
    (by decide) (by decide)


theorem bus_read_boot (b : Bus) (a : Nat) (ha : a ≤ 0x00FF)
    (h : b.io_regs.boot_rom_enable = 0) : b.read_u8 a = .ok (b.boot_rom.contents a) := by
  unfold Bus.read_u8
  rw [if_pos ha]
  simp [Bus.boot_rom_enabled, h]

/-! Recorded literal-arithmetic equations used by the interrupt-service proofs. -/

theorem eq_zero_add_five : (0 : Nat) + 5 = 5 := by norm_num

theorem eq_shl_one_zero : (1 : Nat) <<< 0 = 1 := by norm_num

theorem eq_ff_sub_one : (255 : Nat) - 1 = 254 := by norm_num

theorem eq_one_and_fe : (1 : Nat) &&& 254 = 0 := by decide

theorem eq_one_and_one : (1 : Nat) &&& 1 = 1 := by decide

theorem eq_push_sp_one : (65535 + 65536 - 1) % 65536 = 65534 := by norm_num

theorem eq_push_sp_two : (65534 + 65536 - 1) % 65536 = 65533 := by norm_num

theorem eq_next_ip : ((64 : Nat) + 1) % 65536 = 65 := by norm_num

theorem eq_five_add_one : (5 : Nat) + 1 = 6 := by norm_num

theorem eq_read_hi_addr : ((65533 : Nat) + 1) % 65536 = 65534 := by norm_num

theorem eq_hram_off_lo : (65533 : Nat) - 65408 = 125 := by norm_num

theorem eq_hram_off_hi : (65534 : Nat) - 65408 = 126 := by norm_num

theorem le_ip_boot : (64 : Nat) ≤ 255 := by norm_num

theorem eq_off_ne : ((126 : Nat) = 125) = False := eq_false (by decide)

/-- Bus::write_u8 lands in high RAM for a stack pointer of 0xFFFE. -/
theorem bus_write_hram_hi (b : Bus) (d : Nat) :
    b.write_u8 65534 d = .ok { b with high_ram := b.high_ram.write_u8 65534 d } :=
  bus_write_hram b 65534 d (by norm_num) (by norm_num)

/-- Bus::write_u8 lands in high RAM for a stack pointer of 0xFFFD. -/
theorem bus_write_hram_lo (b : Bus) (d : Nat) :
    b.write_u8 65533 d = .ok { b with high_ram := b.high_ram.write_u8 65533 d } :=
  bus_write_hram b 65533 d (by norm_num) (by norm_num)

theorem bus_read_hram_lo (b : Bus) :
    b.read_u8 65533 = .ok (b.high_ram.read_u8 65533) :=
  bus_read_hram b 65533 (by norm_num) (by norm_num)

theorem bus_read_hram_hi (b : Bus) :
    b.read_u8 65534 = .ok (b.high_ram.read_u8 65534) :=
  bus_read_hram b 65534 (by norm_num) (by norm_num)

/-- Servicing an interrupt from SP = 0xFFFF pushes the PC bytes to
0xFFFE/0xFFFD in high RAM and jumps to the VBlank vector 0x0040. -/
theorem call_vblank_eq (c : Cpu) (h : c.state.stack_pointer = 0xFFFF) :
    c.call_interrupt_handler Interrupt.VBlank = .ok { c with
      state := { c.state with stack_pointer := 65533, instruction_pointer := 64 }
      bus := { c.bus with high_ram := (c.bus.high_ram.write_u8 65534 (c.state.instruction_pointer / 256 % 256)).write_u8 65533 (c.state.instruction_pointer % 256) } } := by
  unfold Cpu.call_interrupt_handler
  rw [push_u16_eq c _ 65534 65533 (by rw [h]) eq_push_sp_two
      (by norm_num) (by norm_num) (by norm_num) (by norm_num)]
  simp only [except_bind_ok, except_pure_eq, ExecutionState.set_instruction_pointer]

/-- Detecting an interrupt with IF = IE = 0x01 yields VBlank. -/
theorem detect_vblank (c : Cpu) (hif : c.bus.io_regs.interrupts.interrupt_flag = 1)
    (hie : c.bus.io_regs.interrupts.interrupt_enable = 1) :
    c.detect_interrupt = some Interrupt.VBlank := by
  unfold Cpu.detect_interrupt Interrupts.highest_priority_triggered_interrupt
  rw [hif, hie]
  exact rfl

/-- Decoding at a boot-ROM address holding 0x00 yields NOP. -/
theorem decode_nop_at_boot (s : ExecutionState) (b : Bus)
    (hip : s.instruction_pointer ≤ 0x00FF) (hbe : b.io_regs.boot_rom_enable = 0)
    (hrom : b.boot_rom.contents s.instruction_pointer = 0) :
    Decoder.decode_one s b = .ok Instruction.Nop := by
  unfold Decoder.decode_one
  simp only [bus_read_boot b s.instruction_pointer hip hbe, hrom,
    Opcode.tryFromU8, eq_self_iff_true, if_true, ite_true,
    except_bind_ok, except_pure_eq]

theorem exec_nop_eq (c : Cpu) (addr cyc : Nat) :
    c.execute_instruction Instruction.Nop addr cyc = .ok (c, addr, cyc) := rfl

/-- With no DMA transfer in flight, step_dma is inert. -/
theorem step_dma_off (c : Cpu) (n : Nat) (h : c.bus.io_regs.dma.transferring = false) :
    c.step_dma n = (c, false) := by
  unfold Cpu.step_dma DMAController.step
  rw [h]
  simp only [Bool.false_eq_true, if_false, ite_false]

/-! Recorded projection values of the VBlank-pending fixture. -/

theorem cvp_halted (p : Nat) : (cpuVBlankPending p).halted = false := rfl

theorem cvp_ien (p : Nat) : (cpuVBlankPending p).interrupt_enable_next = false := rfl

theorem cvp_ime (p : Nat) : (cpuVBlankPending p).state.interrupts_enabled = true := rfl

theorem cvp_sp (p : Nat) : (cpuVBlankPending p).state.stack_pointer = 65535 := rfl

theorem cvp_ip (p : Nat) : (cpuVBlankPending p).state.instruction_pointer = p := rfl

theorem cvp_if (p : Nat) : (cpuVBlankPending p).bus.io_regs.interrupts.interrupt_flag = 1 := rfl

theorem cvp_ie (p : Nat) : (cpuVBlankPending p).bus.io_regs.interrupts.interrupt_enable = 1 := rfl

theorem cvp_boot (p : Nat) : (cpuVBlankPending p).bus.io_regs.boot_rom_enable = 0 := rfl

theorem cvp_dma (p : Nat) : (cpuVBlankPending p).bus.io_regs.dma.transferring = false := rfl

theorem cvp_rom (p a : Nat) : (cpuVBlankPending p).bus.boot_rom.contents a = 0 := rfl

set_option maxRecDepth 16384 in
/-- C1 (amended): with IME on, IE = IF = 0x01, SP = 0xFFFF and any 16-bit
pre-step PC `p`, one `step` does service the VBlank interrupt as the spec
says - it pushes `p` (SP drops to 0xFFFD and the stack top reads back `p`),
clears the IF bit, clears IME and jumps to the 0x0040 vector - but it does
NOT stop there: the same `step` then decodes and executes the instruction
at the vector, so with a NOP at 0x0040 the step returns 5 + 1 = 6 machine
cycles (24 T-cycles, not the claimed 20) and leaves PC = 0x0041, not
0x0040. -/
theorem C1_amended_interrupt_step (p : Nat) (hp : p < 65536) :
    ((Cpu.step (cpuVBlankPending p)).toOption.map fun q =>
      (q.2, q.1.state.instruction_pointer, q.1.state.stack_pointer,
       (q.1.bus.read_u16 0xFFFD).toOption,
       q.1.bus.io_regs.interrupts.interrupt_flag,
       q.1.state.interrupts_enabled)) =
      some (6, 0x41, 0xFFFD, some p, 0, false) := by
  have key := split16_recombine p hp
  simp only [Cpu.step, detect_vblank, cvp_halted, cvp_ien, cvp_ime, cvp_sp, cvp_ip,
    cvp_if, cvp_ie, cvp_boot, cvp_dma, cvp_rom,
    Cpu.clear_requested_interrupt, Interrupts.clear_requested_interrupt, Interrupt.bit,
    ExecutionState.set_interrupts_enabled, ExecutionState.set_instruction_pointer,
    call_vblank_eq, decode_nop_at_boot, le_ip_boot,
    Instruction.length, Instruction.base_num_cycles, exec_nop_eq, step_dma_off,
    Bus.read_u16, bus_read_hram_lo, bus_read_hram_hi, HighRam.write_u8, HighRam.read_u8,
    except_bind_ok, except_pure_eq, except_map_ok, except_toOption_ok, option_map_some_eq,
    eq_zero_add_five, eq_shl_one_zero, eq_ff_sub_one, eq_one_and_fe, eq_one_and_one,
    eq_next_ip, eq_five_add_one, eq_read_hi_addr, eq_hram_off_lo, eq_hram_off_hi,
    key, eq_off_ne, Bool.false_and, Bool.and_self, Option.isNone_some, ne_eq,
    eq_self_iff_true, not_true, not_false_eq_true, if_true, if_false, ite_true, ite_false,
    reduceIte, reduceCtorEq]

/-- C1: the spec's scenario (IE = 0x01, IF = 0x01, IME = 1, then one
`step`) refuted on the code: with pre-step PC = 0x1234 the step leaves
PC = 0x0041 and charges 6 machine cycles, not PC = 0x0040 and 5 machine
cycles (20 T-cycles): the interrupt service falls through and also
executes the NOP at the vector within the same `step`. -/
theorem C1_counterexample :
    ((Cpu.step (cpuVBlankPending 0x1234)).toOption.map fun q =>
      (q.1.state.instruction_pointer, q.2)) = some (0x41, 6) ∧
    ((0x41 : Nat), (6 : Nat)) ≠ ((0x40 : Nat), (5 : Nat)) :=
  ⟨by decide, by decide⟩

/-- C1 witness: the amended theorem at the concrete pre-step PC 0x1234. -/
theorem C1_amended_interrupt_step_witness :
    ((Cpu.step (cpuVBlankPending 0x1234)).toOption.map fun q =>
      (q.2, q.1.state.instruction_pointer, q.1.state.stack_pointer,
       (q.1.bus.read_u16 0xFFFD).toOption,
       q.1.bus.io_regs.interrupts.interrupt_flag,
       q.1.state.interrupts_enabled)) =
      some (6, 0x41, 0xFFFD, some 0x1234, 0, false) :=
  C1_amended_interrupt_step 0x1234 (by decide)

end GB
